import Mathlib

/-!
# Verification of `lev_distance` (Levenshtein distance + best-match search)

Shallow embedding of `src/src/lib.rs`.  Strings are modelled as `List Char`
(Rust iterates `str::chars()`, i.e. Unicode scalar values).  Rust's
`str::len()` (the UTF-8 byte length) is modelled by `utf8Len`, summing
`Char.utf8Size` over the characters, which matches the UTF-8 encoding length
of a Rust `&str`.
-/

/-- Models Rust `str::len()`: the UTF-8 byte length of the string. -/
def utf8Len (s : List Char) : Nat := (s.map Char.utf8Size).sum

/-- The inner loop of `lev_distance` (`for (j, tc) in b.chars().enumerate()`),
processing the remaining characters `tcs` of `b` starting at index `j`.
The mutable state is `(dcol, current, t_last)`; each iteration reads
`next = dcol[j+1]`, writes `dcol[j+1]`, and then sets `current = next`,
`t_last = j`.  Out-of-bounds reads are modelled with `getD _ 0` (a separate
checked variant below shows every access is in bounds). -/
def levInner (sc : Char) : List Char → Nat → List Nat → Nat → Nat → List Nat × Nat
  | [], _, dcol, _, tLast => (dcol, tLast)
  | tc :: rest, j, dcol, current, tLast =>
    let next := dcol.getD (j + 1) 0
    let dcol' :=
      if sc = tc then dcol.set (j + 1) current
      else dcol.set (j + 1) (min (min current next) (dcol.getD j 0) + 1)
    levInner sc rest (j + 1) dcol' next j

/-- The outer loop of `lev_distance` (`for (i, sc) in a.chars().enumerate()`):
`current = i; dcol[0] = current + 1;` then the inner loop over `b`. -/
def levOuter : List Char → Nat → List Char → List Nat → Nat → List Nat × Nat
  | [], _, _, dcol, tLast => (dcol, tLast)
  | sc :: rest, i, b, dcol, tLast =>
    let dcol1 := dcol.set 0 (i + 1)
    let st := levInner sc b 0 dcol1 i tLast
    levOuter rest (i + 1) b st.1 st.2

/-- Embedding of `lev_distance` from `src/src/lib.rs`: the early returns for
empty strings, then `dcol = (0..=b.len()).collect()` (note `b.len()` is the
byte length), the two nested loops, and the final read `dcol[t_last + 1]`. -/
def lev_distance (a b : List Char) : Nat :=
  if a.isEmpty then b.length
  else if b.isEmpty then a.length
  else
    let dcol0 := List.range (utf8Len b + 1)
    let st := levOuter a 0 b dcol0 0
    st.1.getD (st.2 + 1) 0

/-- Checked variant of the inner loop: every index expression of the Rust code
(`dcol[j+1]` read and write, `dcol[j]` read) is performed through `get?`/a
bounds test, and failure (which in Rust would be a panic) is `none`. -/
def levInnerChk (sc : Char) : List Char → Nat → List Nat → Nat → Nat → Option (List Nat × Nat)
  | [], _, dcol, _, tLast => some (dcol, tLast)
  | tc :: rest, j, dcol, current, tLast =>
    match dcol[j + 1]? with
    | none => none
    | some next =>
      if sc = tc then
        levInnerChk sc rest (j + 1) (dcol.set (j + 1) current) next j
      else
        match dcol[j]? with
        | none => none
        | some dj =>
          levInnerChk sc rest (j + 1) (dcol.set (j + 1) (min (min current next) dj + 1)) next j

/-- Checked variant of the outer loop: the write `dcol[0] = current + 1`
panics (returns `none`) when `dcol` is empty. -/
def levOuterChk : List Char → Nat → List Char → List Nat → Nat → Option (List Nat × Nat)
  | [], _, _, dcol, tLast => some (dcol, tLast)
  | sc :: rest, i, b, dcol, tLast =>
    if 0 < dcol.length then
      match levInnerChk sc b 0 (dcol.set 0 (i + 1)) i tLast with
      | none => none
      | some st => levOuterChk rest (i + 1) b st.1 st.2
    else none

/-- Checked variant of `lev_distance`: `none` models an index-out-of-bounds
panic anywhere in the computation (including the final `dcol[t_last + 1]`). -/
def lev_distanceChk (a b : List Char) : Option Nat :=
  if a.isEmpty then some b.length
  else if b.isEmpty then some a.length
  else
    match levOuterChk a 0 b (List.range (utf8Len b + 1)) 0 with
    | none => none
    | some st => st.1[st.2 + 1]?

/-- The textbook recursive Levenshtein distance; used as the bridge between
the rolling-row loop of `lev_distance` and the minimal-edit characterization. -/
def levRec : List Char → List Char → Nat
  | [], ys => ys.length
  | xs, [] => xs.length
  | x :: xs, y :: ys =>
    if x = y then levRec xs ys
    else 1 + min (levRec xs (y :: ys)) (min (levRec (x :: xs) ys) (levRec xs ys))
termination_by a b => a.length + b.length
decreasing_by all_goals simp +arith [List.length]

/-- One single-character edit: inserting, deleting, or substituting one
character at an arbitrary position. -/
inductive EditStep : List Char → List Char → Prop
  | insert (xs ys : List Char) (c : Char) : EditStep (xs ++ ys) (xs ++ c :: ys)
  | delete (xs ys : List Char) (c : Char) : EditStep (xs ++ c :: ys) (xs ++ ys)
  | subst (xs ys : List Char) (c d : Char) : EditStep (xs ++ c :: ys) (xs ++ d :: ys)

/-- Relation `EditPath n a b`: `a` can be transformed into `b` by `n`
single-character edits.  The minimum such `n` is the Levenshtein distance in the sense of the
specification. -/
inductive EditPath : Nat → List Char → List Char → Prop
  | refl (xs : List Char) : EditPath 0 xs xs
  | step {n : Nat} {xs ys zs : List Char} :
      EditStep xs ys → EditPath n ys zs → EditPath (n + 1) xs zs

set_option maxHeartbeats 1600000 in
/-- The Unicode full uppercase mapping for non-ASCII scalar values: every
scalar value above `0x7f` whose full uppercase mapping differs from itself,
paired with that mapping (one to three scalar values, e.g. `0xdf` = `ß`
maps to `SS`).  This is the Unicode character database data from which Rust's
`char::to_uppercase` is generated. -/
def unicodeUpperTable : List (Nat × List Nat) := [
  (0xb5, [0x39c]), (0xdf, [0x53, 0x53]), (0xe0, [0xc0]), (0xe1, [0xc1]),
  (0xe2, [0xc2]), (0xe3, [0xc3]), (0xe4, [0xc4]), (0xe5, [0xc5]),
  (0xe6, [0xc6]), (0xe7, [0xc7]), (0xe8, [0xc8]), (0xe9, [0xc9]),
  (0xea, [0xca]), (0xeb, [0xcb]), (0xec, [0xcc]), (0xed, [0xcd]),
  (0xee, [0xce]), (0xef, [0xcf]), (0xf0, [0xd0]), (0xf1, [0xd1]),
  (0xf2, [0xd2]), (0xf3, [0xd3]), (0xf4, [0xd4]), (0xf5, [0xd5]),
  (0xf6, [0xd6]), (0xf8, [0xd8]), (0xf9, [0xd9]), (0xfa, [0xda]),
  (0xfb, [0xdb]), (0xfc, [0xdc]), (0xfd, [0xdd]), (0xfe, [0xde]),
  (0xff, [0x178]), (0x101, [0x100]), (0x103, [0x102]), (0x105, [0x104]),
  (0x107, [0x106]), (0x109, [0x108]), (0x10b, [0x10a]), (0x10d, [0x10c]),
  (0x10f, [0x10e]), (0x111, [0x110]), (0x113, [0x112]), (0x115, [0x114]),
  (0x117, [0x116]), (0x119, [0x118]), (0x11b, [0x11a]), (0x11d, [0x11c]),
  (0x11f, [0x11e]), (0x121, [0x120]), (0x123, [0x122]), (0x125, [0x124]),
  (0x127, [0x126]), (0x129, [0x128]), (0x12b, [0x12a]), (0x12d, [0x12c]),
  (0x12f, [0x12e]), (0x131, [0x49]), (0x133, [0x132]), (0x135, [0x134]),
  (0x137, [0x136]), (0x13a, [0x139]), (0x13c, [0x13b]), (0x13e, [0x13d]),
  (0x140, [0x13f]), (0x142, [0x141]), (0x144, [0x143]), (0x146, [0x145]),
  (0x148, [0x147]), (0x149, [0x2bc, 0x4e]), (0x14b, [0x14a]), (0x14d, [0x14c]),
  (0x14f, [0x14e]), (0x151, [0x150]), (0x153, [0x152]), (0x155, [0x154]),
  (0x157, [0x156]), (0x159, [0x158]), (0x15b, [0x15a]), (0x15d, [0x15c]),
  (0x15f, [0x15e]), (0x161, [0x160]), (0x163, [0x162]), (0x165, [0x164]),
  (0x167, [0x166]), (0x169, [0x168]), (0x16b, [0x16a]), (0x16d, [0x16c]),
  (0x16f, [0x16e]), (0x171, [0x170]), (0x173, [0x172]), (0x175, [0x174]),
  (0x177, [0x176]), (0x17a, [0x179]), (0x17c, [0x17b]), (0x17e, [0x17d]),
  (0x17f, [0x53]), (0x180, [0x243]), (0x183, [0x182]), (0x185, [0x184]),
  (0x188, [0x187]), (0x18c, [0x18b]), (0x192, [0x191]), (0x195, [0x1f6]),
  (0x199, [0x198]), (0x19a, [0x23d]), (0x19e, [0x220]), (0x1a1, [0x1a0]),
  (0x1a3, [0x1a2]), (0x1a5, [0x1a4]), (0x1a8, [0x1a7]), (0x1ad, [0x1ac]),
  (0x1b0, [0x1af]), (0x1b4, [0x1b3]), (0x1b6, [0x1b5]), (0x1b9, [0x1b8]),
  (0x1bd, [0x1bc]), (0x1bf, [0x1f7]), (0x1c5, [0x1c4]), (0x1c6, [0x1c4]),
  (0x1c8, [0x1c7]), (0x1c9, [0x1c7]), (0x1cb, [0x1ca]), (0x1cc, [0x1ca]),
  (0x1ce, [0x1cd]), (0x1d0, [0x1cf]), (0x1d2, [0x1d1]), (0x1d4, [0x1d3]),
  (0x1d6, [0x1d5]), (0x1d8, [0x1d7]), (0x1da, [0x1d9]), (0x1dc, [0x1db]),
  (0x1dd, [0x18e]), (0x1df, [0x1de]), (0x1e1, [0x1e0]), (0x1e3, [0x1e2]),
  (0x1e5, [0x1e4]), (0x1e7, [0x1e6]), (0x1e9, [0x1e8]), (0x1eb, [0x1ea]),
  (0x1ed, [0x1ec]), (0x1ef, [0x1ee]), (0x1f0, [0x4a, 0x30c]), (0x1f2, [0x1f1]),
  (0x1f3, [0x1f1]), (0x1f5, [0x1f4]), (0x1f9, [0x1f8]), (0x1fb, [0x1fa]),
  (0x1fd, [0x1fc]), (0x1ff, [0x1fe]), (0x201, [0x200]), (0x203, [0x202]),
  (0x205, [0x204]), (0x207, [0x206]), (0x209, [0x208]), (0x20b, [0x20a]),
  (0x20d, [0x20c]), (0x20f, [0x20e]), (0x211, [0x210]), (0x213, [0x212]),
  (0x215, [0x214]), (0x217, [0x216]), (0x219, [0x218]), (0x21b, [0x21a]),
  (0x21d, [0x21c]), (0x21f, [0x21e]), (0x223, [0x222]), (0x225, [0x224]),
  (0x227, [0x226]), (0x229, [0x228]), (0x22b, [0x22a]), (0x22d, [0x22c]),
  (0x22f, [0x22e]), (0x231, [0x230]), (0x233, [0x232]), (0x23c, [0x23b]),
  (0x23f, [0x2c7e]), (0x240, [0x2c7f]), (0x242, [0x241]), (0x247, [0x246]),
  (0x249, [0x248]), (0x24b, [0x24a]), (0x24d, [0x24c]), (0x24f, [0x24e]),
  (0x250, [0x2c6f]), (0x251, [0x2c6d]), (0x252, [0x2c70]), (0x253, [0x181]),
  (0x254, [0x186]), (0x256, [0x189]), (0x257, [0x18a]), (0x259, [0x18f]),
  (0x25b, [0x190]), (0x25c, [0xa7ab]), (0x260, [0x193]), (0x261, [0xa7ac]),
  (0x263, [0x194]), (0x265, [0xa78d]), (0x266, [0xa7aa]), (0x268, [0x197]),
  (0x269, [0x196]), (0x26a, [0xa7ae]), (0x26b, [0x2c62]), (0x26c, [0xa7ad]),
  (0x26f, [0x19c]), (0x271, [0x2c6e]), (0x272, [0x19d]), (0x275, [0x19f]),
  (0x27d, [0x2c64]), (0x280, [0x1a6]), (0x282, [0xa7c5]), (0x283, [0x1a9]),
  (0x287, [0xa7b1]), (0x288, [0x1ae]), (0x289, [0x244]), (0x28a, [0x1b1]),
  (0x28b, [0x1b2]), (0x28c, [0x245]), (0x292, [0x1b7]), (0x29d, [0xa7b2]),
  (0x29e, [0xa7b0]), (0x345, [0x399]), (0x371, [0x370]), (0x373, [0x372]),
  (0x377, [0x376]), (0x37b, [0x3fd]), (0x37c, [0x3fe]), (0x37d, [0x3ff]),
  (0x390, [0x399, 0x308, 0x301]), (0x3ac, [0x386]), (0x3ad, [0x388]), (0x3ae, [0x389]),
  (0x3af, [0x38a]), (0x3b0, [0x3a5, 0x308, 0x301]), (0x3b1, [0x391]), (0x3b2, [0x392]),
  (0x3b3, [0x393]), (0x3b4, [0x394]), (0x3b5, [0x395]), (0x3b6, [0x396]),
  (0x3b7, [0x397]), (0x3b8, [0x398]), (0x3b9, [0x399]), (0x3ba, [0x39a]),
  (0x3bb, [0x39b]), (0x3bc, [0x39c]), (0x3bd, [0x39d]), (0x3be, [0x39e]),
  (0x3bf, [0x39f]), (0x3c0, [0x3a0]), (0x3c1, [0x3a1]), (0x3c2, [0x3a3]),
  (0x3c3, [0x3a3]), (0x3c4, [0x3a4]), (0x3c5, [0x3a5]), (0x3c6, [0x3a6]),
  (0x3c7, [0x3a7]), (0x3c8, [0x3a8]), (0x3c9, [0x3a9]), (0x3ca, [0x3aa]),
  (0x3cb, [0x3ab]), (0x3cc, [0x38c]), (0x3cd, [0x38e]), (0x3ce, [0x38f]),
  (0x3d0, [0x392]), (0x3d1, [0x398]), (0x3d5, [0x3a6]), (0x3d6, [0x3a0]),
  (0x3d7, [0x3cf]), (0x3d9, [0x3d8]), (0x3db, [0x3da]), (0x3dd, [0x3dc]),
  (0x3df, [0x3de]), (0x3e1, [0x3e0]), (0x3e3, [0x3e2]), (0x3e5, [0x3e4]),
  (0x3e7, [0x3e6]), (0x3e9, [0x3e8]), (0x3eb, [0x3ea]), (0x3ed, [0x3ec]),
  (0x3ef, [0x3ee]), (0x3f0, [0x39a]), (0x3f1, [0x3a1]), (0x3f2, [0x3f9]),
  (0x3f3, [0x37f]), (0x3f5, [0x395]), (0x3f8, [0x3f7]), (0x3fb, [0x3fa]),
  (0x430, [0x410]), (0x431, [0x411]), (0x432, [0x412]), (0x433, [0x413]),
  (0x434, [0x414]), (0x435, [0x415]), (0x436, [0x416]), (0x437, [0x417]),
  (0x438, [0x418]), (0x439, [0x419]), (0x43a, [0x41a]), (0x43b, [0x41b]),
  (0x43c, [0x41c]), (0x43d, [0x41d]), (0x43e, [0x41e]), (0x43f, [0x41f]),
  (0x440, [0x420]), (0x441, [0x421]), (0x442, [0x422]), (0x443, [0x423]),
  (0x444, [0x424]), (0x445, [0x425]), (0x446, [0x426]), (0x447, [0x427]),
  (0x448, [0x428]), (0x449, [0x429]), (0x44a, [0x42a]), (0x44b, [0x42b]),
  (0x44c, [0x42c]), (0x44d, [0x42d]), (0x44e, [0x42e]), (0x44f, [0x42f]),
  (0x450, [0x400]), (0x451, [0x401]), (0x452, [0x402]), (0x453, [0x403]),
  (0x454, [0x404]), (0x455, [0x405]), (0x456, [0x406]), (0x457, [0x407]),
  (0x458, [0x408]), (0x459, [0x409]), (0x45a, [0x40a]), (0x45b, [0x40b]),
  (0x45c, [0x40c]), (0x45d, [0x40d]), (0x45e, [0x40e]), (0x45f, [0x40f]),
  (0x461, [0x460]), (0x463, [0x462]), (0x465, [0x464]), (0x467, [0x466]),
  (0x469, [0x468]), (0x46b, [0x46a]), (0x46d, [0x46c]), (0x46f, [0x46e]),
  (0x471, [0x470]), (0x473, [0x472]), (0x475, [0x474]), (0x477, [0x476]),
  (0x479, [0x478]), (0x47b, [0x47a]), (0x47d, [0x47c]), (0x47f, [0x47e]),
  (0x481, [0x480]), (0x48b, [0x48a]), (0x48d, [0x48c]), (0x48f, [0x48e]),
  (0x491, [0x490]), (0x493, [0x492]), (0x495, [0x494]), (0x497, [0x496]),
  (0x499, [0x498]), (0x49b, [0x49a]), (0x49d, [0x49c]), (0x49f, [0x49e]),
  (0x4a1, [0x4a0]), (0x4a3, [0x4a2]), (0x4a5, [0x4a4]), (0x4a7, [0x4a6]),
  (0x4a9, [0x4a8]), (0x4ab, [0x4aa]), (0x4ad, [0x4ac]), (0x4af, [0x4ae]),
  (0x4b1, [0x4b0]), (0x4b3, [0x4b2]), (0x4b5, [0x4b4]), (0x4b7, [0x4b6]),
  (0x4b9, [0x4b8]), (0x4bb, [0x4ba]), (0x4bd, [0x4bc]), (0x4bf, [0x4be]),
  (0x4c2, [0x4c1]), (0x4c4, [0x4c3]), (0x4c6, [0x4c5]), (0x4c8, [0x4c7]),
  (0x4ca, [0x4c9]), (0x4cc, [0x4cb]), (0x4ce, [0x4cd]), (0x4cf, [0x4c0]),
  (0x4d1, [0x4d0]), (0x4d3, [0x4d2]), (0x4d5, [0x4d4]), (0x4d7, [0x4d6]),
  (0x4d9, [0x4d8]), (0x4db, [0x4da]), (0x4dd, [0x4dc]), (0x4df, [0x4de]),
  (0x4e1, [0x4e0]), (0x4e3, [0x4e2]), (0x4e5, [0x4e4]), (0x4e7, [0x4e6]),
  (0x4e9, [0x4e8]), (0x4eb, [0x4ea]), (0x4ed, [0x4ec]), (0x4ef, [0x4ee]),
  (0x4f1, [0x4f0]), (0x4f3, [0x4f2]), (0x4f5, [0x4f4]), (0x4f7, [0x4f6]),
  (0x4f9, [0x4f8]), (0x4fb, [0x4fa]), (0x4fd, [0x4fc]), (0x4ff, [0x4fe]),
  (0x501, [0x500]), (0x503, [0x502]), (0x505, [0x504]), (0x507, [0x506]),
  (0x509, [0x508]), (0x50b, [0x50a]), (0x50d, [0x50c]), (0x50f, [0x50e]),
  (0x511, [0x510]), (0x513, [0x512]), (0x515, [0x514]), (0x517, [0x516]),
  (0x519, [0x518]), (0x51b, [0x51a]), (0x51d, [0x51c]), (0x51f, [0x51e]),
  (0x521, [0x520]), (0x523, [0x522]), (0x525, [0x524]), (0x527, [0x526]),
  (0x529, [0x528]), (0x52b, [0x52a]), (0x52d, [0x52c]), (0x52f, [0x52e]),
  (0x561, [0x531]), (0x562, [0x532]), (0x563, [0x533]), (0x564, [0x534]),
  (0x565, [0x535]), (0x566, [0x536]), (0x567, [0x537]), (0x568, [0x538]),
  (0x569, [0x539]), (0x56a, [0x53a]), (0x56b, [0x53b]), (0x56c, [0x53c]),
  (0x56d, [0x53d]), (0x56e, [0x53e]), (0x56f, [0x53f]), (0x570, [0x540]),
  (0x571, [0x541]), (0x572, [0x542]), (0x573, [0x543]), (0x574, [0x544]),
  (0x575, [0x545]), (0x576, [0x546]), (0x577, [0x547]), (0x578, [0x548]),
  (0x579, [0x549]), (0x57a, [0x54a]), (0x57b, [0x54b]), (0x57c, [0x54c]),
  (0x57d, [0x54d]), (0x57e, [0x54e]), (0x57f, [0x54f]), (0x580, [0x550]),
  (0x581, [0x551]), (0x582, [0x552]), (0x583, [0x553]), (0x584, [0x554]),
  (0x585, [0x555]), (0x586, [0x556]), (0x587, [0x535, 0x552]), (0x10d0, [0x1c90]),
  (0x10d1, [0x1c91]), (0x10d2, [0x1c92]), (0x10d3, [0x1c93]), (0x10d4, [0x1c94]),
  (0x10d5, [0x1c95]), (0x10d6, [0x1c96]), (0x10d7, [0x1c97]), (0x10d8, [0x1c98]),
  (0x10d9, [0x1c99]), (0x10da, [0x1c9a]), (0x10db, [0x1c9b]), (0x10dc, [0x1c9c]),
  (0x10dd, [0x1c9d]), (0x10de, [0x1c9e]), (0x10df, [0x1c9f]), (0x10e0, [0x1ca0]),
  (0x10e1, [0x1ca1]), (0x10e2, [0x1ca2]), (0x10e3, [0x1ca3]), (0x10e4, [0x1ca4]),
  (0x10e5, [0x1ca5]), (0x10e6, [0x1ca6]), (0x10e7, [0x1ca7]), (0x10e8, [0x1ca8]),
  (0x10e9, [0x1ca9]), (0x10ea, [0x1caa]), (0x10eb, [0x1cab]), (0x10ec, [0x1cac]),
  (0x10ed, [0x1cad]), (0x10ee, [0x1cae]), (0x10ef, [0x1caf]), (0x10f0, [0x1cb0]),
  (0x10f1, [0x1cb1]), (0x10f2, [0x1cb2]), (0x10f3, [0x1cb3]), (0x10f4, [0x1cb4]),
  (0x10f5, [0x1cb5]), (0x10f6, [0x1cb6]), (0x10f7, [0x1cb7]), (0x10f8, [0x1cb8]),
  (0x10f9, [0x1cb9]), (0x10fa, [0x1cba]), (0x10fd, [0x1cbd]), (0x10fe, [0x1cbe]),
  (0x10ff, [0x1cbf]), (0x13f8, [0x13f0]), (0x13f9, [0x13f1]), (0x13fa, [0x13f2]),
  (0x13fb, [0x13f3]), (0x13fc, [0x13f4]), (0x13fd, [0x13f5]), (0x1c80, [0x412]),
  (0x1c81, [0x414]), (0x1c82, [0x41e]), (0x1c83, [0x421]), (0x1c84, [0x422]),
  (0x1c85, [0x422]), (0x1c86, [0x42a]), (0x1c87, [0x462]), (0x1c88, [0xa64a]),
  (0x1d79, [0xa77d]), (0x1d7d, [0x2c63]), (0x1d8e, [0xa7c6]), (0x1e01, [0x1e00]),
  (0x1e03, [0x1e02]), (0x1e05, [0x1e04]), (0x1e07, [0x1e06]), (0x1e09, [0x1e08]),
  (0x1e0b, [0x1e0a]), (0x1e0d, [0x1e0c]), (0x1e0f, [0x1e0e]), (0x1e11, [0x1e10]),
  (0x1e13, [0x1e12]), (0x1e15, [0x1e14]), (0x1e17, [0x1e16]), (0x1e19, [0x1e18]),
  (0x1e1b, [0x1e1a]), (0x1e1d, [0x1e1c]), (0x1e1f, [0x1e1e]), (0x1e21, [0x1e20]),
  (0x1e23, [0x1e22]), (0x1e25, [0x1e24]), (0x1e27, [0x1e26]), (0x1e29, [0x1e28]),
  (0x1e2b, [0x1e2a]), (0x1e2d, [0x1e2c]), (0x1e2f, [0x1e2e]), (0x1e31, [0x1e30]),
  (0x1e33, [0x1e32]), (0x1e35, [0x1e34]), (0x1e37, [0x1e36]), (0x1e39, [0x1e38]),
  (0x1e3b, [0x1e3a]), (0x1e3d, [0x1e3c]), (0x1e3f, [0x1e3e]), (0x1e41, [0x1e40]),
  (0x1e43, [0x1e42]), (0x1e45, [0x1e44]), (0x1e47, [0x1e46]), (0x1e49, [0x1e48]),
  (0x1e4b, [0x1e4a]), (0x1e4d, [0x1e4c]), (0x1e4f, [0x1e4e]), (0x1e51, [0x1e50]),
  (0x1e53, [0x1e52]), (0x1e55, [0x1e54]), (0x1e57, [0x1e56]), (0x1e59, [0x1e58]),
  (0x1e5b, [0x1e5a]), (0x1e5d, [0x1e5c]), (0x1e5f, [0x1e5e]), (0x1e61, [0x1e60]),
  (0x1e63, [0x1e62]), (0x1e65, [0x1e64]), (0x1e67, [0x1e66]), (0x1e69, [0x1e68]),
  (0x1e6b, [0x1e6a]), (0x1e6d, [0x1e6c]), (0x1e6f, [0x1e6e]), (0x1e71, [0x1e70]),
  (0x1e73, [0x1e72]), (0x1e75, [0x1e74]), (0x1e77, [0x1e76]), (0x1e79, [0x1e78]),
  (0x1e7b, [0x1e7a]), (0x1e7d, [0x1e7c]), (0x1e7f, [0x1e7e]), (0x1e81, [0x1e80]),
  (0x1e83, [0x1e82]), (0x1e85, [0x1e84]), (0x1e87, [0x1e86]), (0x1e89, [0x1e88]),
  (0x1e8b, [0x1e8a]), (0x1e8d, [0x1e8c]), (0x1e8f, [0x1e8e]), (0x1e91, [0x1e90]),
  (0x1e93, [0x1e92]), (0x1e95, [0x1e94]), (0x1e96, [0x48, 0x331]), (0x1e97, [0x54, 0x308]),
  (0x1e98, [0x57, 0x30a]), (0x1e99, [0x59, 0x30a]), (0x1e9a, [0x41, 0x2be]), (0x1e9b, [0x1e60]),
  (0x1ea1, [0x1ea0]), (0x1ea3, [0x1ea2]), (0x1ea5, [0x1ea4]), (0x1ea7, [0x1ea6]),
  (0x1ea9, [0x1ea8]), (0x1eab, [0x1eaa]), (0x1ead, [0x1eac]), (0x1eaf, [0x1eae]),
  (0x1eb1, [0x1eb0]), (0x1eb3, [0x1eb2]), (0x1eb5, [0x1eb4]), (0x1eb7, [0x1eb6]),
  (0x1eb9, [0x1eb8]), (0x1ebb, [0x1eba]), (0x1ebd, [0x1ebc]), (0x1ebf, [0x1ebe]),
  (0x1ec1, [0x1ec0]), (0x1ec3, [0x1ec2]), (0x1ec5, [0x1ec4]), (0x1ec7, [0x1ec6]),
  (0x1ec9, [0x1ec8]), (0x1ecb, [0x1eca]), (0x1ecd, [0x1ecc]), (0x1ecf, [0x1ece]),
  (0x1ed1, [0x1ed0]), (0x1ed3, [0x1ed2]), (0x1ed5, [0x1ed4]), (0x1ed7, [0x1ed6]),
  (0x1ed9, [0x1ed8]), (0x1edb, [0x1eda]), (0x1edd, [0x1edc]), (0x1edf, [0x1ede]),
  (0x1ee1, [0x1ee0]), (0x1ee3, [0x1ee2]), (0x1ee5, [0x1ee4]), (0x1ee7, [0x1ee6]),
  (0x1ee9, [0x1ee8]), (0x1eeb, [0x1eea]), (0x1eed, [0x1eec]), (0x1eef, [0x1eee]),
  (0x1ef1, [0x1ef0]), (0x1ef3, [0x1ef2]), (0x1ef5, [0x1ef4]), (0x1ef7, [0x1ef6]),
  (0x1ef9, [0x1ef8]), (0x1efb, [0x1efa]), (0x1efd, [0x1efc]), (0x1eff, [0x1efe]),
  (0x1f00, [0x1f08]), (0x1f01, [0x1f09]), (0x1f02, [0x1f0a]), (0x1f03, [0x1f0b]),
  (0x1f04, [0x1f0c]), (0x1f05, [0x1f0d]), (0x1f06, [0x1f0e]), (0x1f07, [0x1f0f]),
  (0x1f10, [0x1f18]), (0x1f11, [0x1f19]), (0x1f12, [0x1f1a]), (0x1f13, [0x1f1b]),
  (0x1f14, [0x1f1c]), (0x1f15, [0x1f1d]), (0x1f20, [0x1f28]), (0x1f21, [0x1f29]),
  (0x1f22, [0x1f2a]), (0x1f23, [0x1f2b]), (0x1f24, [0x1f2c]), (0x1f25, [0x1f2d]),
  (0x1f26, [0x1f2e]), (0x1f27, [0x1f2f]), (0x1f30, [0x1f38]), (0x1f31, [0x1f39]),
  (0x1f32, [0x1f3a]), (0x1f33, [0x1f3b]), (0x1f34, [0x1f3c]), (0x1f35, [0x1f3d]),
  (0x1f36, [0x1f3e]), (0x1f37, [0x1f3f]), (0x1f40, [0x1f48]), (0x1f41, [0x1f49]),
  (0x1f42, [0x1f4a]), (0x1f43, [0x1f4b]), (0x1f44, [0x1f4c]), (0x1f45, [0x1f4d]),
  (0x1f50, [0x3a5, 0x313]), (0x1f51, [0x1f59]), (0x1f52, [0x3a5, 0x313, 0x300]), (0x1f53, [0x1f5b]),
  (0x1f54, [0x3a5, 0x313, 0x301]), (0x1f55, [0x1f5d]), (0x1f56, [0x3a5, 0x313, 0x342]), (0x1f57, [0x1f5f]),
  (0x1f60, [0x1f68]), (0x1f61, [0x1f69]), (0x1f62, [0x1f6a]), (0x1f63, [0x1f6b]),
  (0x1f64, [0x1f6c]), (0x1f65, [0x1f6d]), (0x1f66, [0x1f6e]), (0x1f67, [0x1f6f]),
  (0x1f70, [0x1fba]), (0x1f71, [0x1fbb]), (0x1f72, [0x1fc8]), (0x1f73, [0x1fc9]),
  (0x1f74, [0x1fca]), (0x1f75, [0x1fcb]), (0x1f76, [0x1fda]), (0x1f77, [0x1fdb]),
  (0x1f78, [0x1ff8]), (0x1f79, [0x1ff9]), (0x1f7a, [0x1fea]), (0x1f7b, [0x1feb]),
  (0x1f7c, [0x1ffa]), (0x1f7d, [0x1ffb]), (0x1f80, [0x1f08, 0x399]), (0x1f81, [0x1f09, 0x399]),
  (0x1f82, [0x1f0a, 0x399]), (0x1f83, [0x1f0b, 0x399]), (0x1f84, [0x1f0c, 0x399]), (0x1f85, [0x1f0d, 0x399]),
  (0x1f86, [0x1f0e, 0x399]), (0x1f87, [0x1f0f, 0x399]), (0x1f88, [0x1f08, 0x399]), (0x1f89, [0x1f09, 0x399]),
  (0x1f8a, [0x1f0a, 0x399]), (0x1f8b, [0x1f0b, 0x399]), (0x1f8c, [0x1f0c, 0x399]), (0x1f8d, [0x1f0d, 0x399]),
  (0x1f8e, [0x1f0e, 0x399]), (0x1f8f, [0x1f0f, 0x399]), (0x1f90, [0x1f28, 0x399]), (0x1f91, [0x1f29, 0x399]),
  (0x1f92, [0x1f2a, 0x399]), (0x1f93, [0x1f2b, 0x399]), (0x1f94, [0x1f2c, 0x399]), (0x1f95, [0x1f2d, 0x399]),
  (0x1f96, [0x1f2e, 0x399]), (0x1f97, [0x1f2f, 0x399]), (0x1f98, [0x1f28, 0x399]), (0x1f99, [0x1f29, 0x399]),
  (0x1f9a, [0x1f2a, 0x399]), (0x1f9b, [0x1f2b, 0x399]), (0x1f9c, [0x1f2c, 0x399]), (0x1f9d, [0x1f2d, 0x399]),
  (0x1f9e, [0x1f2e, 0x399]), (0x1f9f, [0x1f2f, 0x399]), (0x1fa0, [0x1f68, 0x399]), (0x1fa1, [0x1f69, 0x399]),
  (0x1fa2, [0x1f6a, 0x399]), (0x1fa3, [0x1f6b, 0x399]), (0x1fa4, [0x1f6c, 0x399]), (0x1fa5, [0x1f6d, 0x399]),
  (0x1fa6, [0x1f6e, 0x399]), (0x1fa7, [0x1f6f, 0x399]), (0x1fa8, [0x1f68, 0x399]), (0x1fa9, [0x1f69, 0x399]),
  (0x1faa, [0x1f6a, 0x399]), (0x1fab, [0x1f6b, 0x399]), (0x1fac, [0x1f6c, 0x399]), (0x1fad, [0x1f6d, 0x399]),
  (0x1fae, [0x1f6e, 0x399]), (0x1faf, [0x1f6f, 0x399]), (0x1fb0, [0x1fb8]), (0x1fb1, [0x1fb9]),
  (0x1fb2, [0x1fba, 0x399]), (0x1fb3, [0x391, 0x399]), (0x1fb4, [0x386, 0x399]), (0x1fb6, [0x391, 0x342]),
  (0x1fb7, [0x391, 0x342, 0x399]), (0x1fbc, [0x391, 0x399]), (0x1fbe, [0x399]), (0x1fc2, [0x1fca, 0x399]),
  (0x1fc3, [0x397, 0x399]), (0x1fc4, [0x389, 0x399]), (0x1fc6, [0x397, 0x342]), (0x1fc7, [0x397, 0x342, 0x399]),
  (0x1fcc, [0x397, 0x399]), (0x1fd0, [0x1fd8]), (0x1fd1, [0x1fd9]), (0x1fd2, [0x399, 0x308, 0x300]),
  (0x1fd3, [0x399, 0x308, 0x301]), (0x1fd6, [0x399, 0x342]), (0x1fd7, [0x399, 0x308, 0x342]), (0x1fe0, [0x1fe8]),
  (0x1fe1, [0x1fe9]), (0x1fe2, [0x3a5, 0x308, 0x300]), (0x1fe3, [0x3a5, 0x308, 0x301]), (0x1fe4, [0x3a1, 0x313]),
  (0x1fe5, [0x1fec]), (0x1fe6, [0x3a5, 0x342]), (0x1fe7, [0x3a5, 0x308, 0x342]), (0x1ff2, [0x1ffa, 0x399]),
  (0x1ff3, [0x3a9, 0x399]), (0x1ff4, [0x38f, 0x399]), (0x1ff6, [0x3a9, 0x342]), (0x1ff7, [0x3a9, 0x342, 0x399]),
  (0x1ffc, [0x3a9, 0x399]), (0x214e, [0x2132]), (0x2170, [0x2160]), (0x2171, [0x2161]),
  (0x2172, [0x2162]), (0x2173, [0x2163]), (0x2174, [0x2164]), (0x2175, [0x2165]),
  (0x2176, [0x2166]), (0x2177, [0x2167]), (0x2178, [0x2168]), (0x2179, [0x2169]),
  (0x217a, [0x216a]), (0x217b, [0x216b]), (0x217c, [0x216c]), (0x217d, [0x216d]),
  (0x217e, [0x216e]), (0x217f, [0x216f]), (0x2184, [0x2183]), (0x24d0, [0x24b6]),
  (0x24d1, [0x24b7]), (0x24d2, [0x24b8]), (0x24d3, [0x24b9]), (0x24d4, [0x24ba]),
  (0x24d5, [0x24bb]), (0x24d6, [0x24bc]), (0x24d7, [0x24bd]), (0x24d8, [0x24be]),
  (0x24d9, [0x24bf]), (0x24da, [0x24c0]), (0x24db, [0x24c1]), (0x24dc, [0x24c2]),
  (0x24dd, [0x24c3]), (0x24de, [0x24c4]), (0x24df, [0x24c5]), (0x24e0, [0x24c6]),
  (0x24e1, [0x24c7]), (0x24e2, [0x24c8]), (0x24e3, [0x24c9]), (0x24e4, [0x24ca]),
  (0x24e5, [0x24cb]), (0x24e6, [0x24cc]), (0x24e7, [0x24cd]), (0x24e8, [0x24ce]),
  (0x24e9, [0x24cf]), (0x2c30, [0x2c00]), (0x2c31, [0x2c01]), (0x2c32, [0x2c02]),
  (0x2c33, [0x2c03]), (0x2c34, [0x2c04]), (0x2c35, [0x2c05]), (0x2c36, [0x2c06]),
  (0x2c37, [0x2c07]), (0x2c38, [0x2c08]), (0x2c39, [0x2c09]), (0x2c3a, [0x2c0a]),
  (0x2c3b, [0x2c0b]), (0x2c3c, [0x2c0c]), (0x2c3d, [0x2c0d]), (0x2c3e, [0x2c0e]),
  (0x2c3f, [0x2c0f]), (0x2c40, [0x2c10]), (0x2c41, [0x2c11]), (0x2c42, [0x2c12]),
  (0x2c43, [0x2c13]), (0x2c44, [0x2c14]), (0x2c45, [0x2c15]), (0x2c46, [0x2c16]),
  (0x2c47, [0x2c17]), (0x2c48, [0x2c18]), (0x2c49, [0x2c19]), (0x2c4a, [0x2c1a]),
  (0x2c4b, [0x2c1b]), (0x2c4c, [0x2c1c]), (0x2c4d, [0x2c1d]), (0x2c4e, [0x2c1e]),
  (0x2c4f, [0x2c1f]), (0x2c50, [0x2c20]), (0x2c51, [0x2c21]), (0x2c52, [0x2c22]),
  (0x2c53, [0x2c23]), (0x2c54, [0x2c24]), (0x2c55, [0x2c25]), (0x2c56, [0x2c26]),
  (0x2c57, [0x2c27]), (0x2c58, [0x2c28]), (0x2c59, [0x2c29]), (0x2c5a, [0x2c2a]),
  (0x2c5b, [0x2c2b]), (0x2c5c, [0x2c2c]), (0x2c5d, [0x2c2d]), (0x2c5e, [0x2c2e]),
  (0x2c5f, [0x2c2f]), (0x2c61, [0x2c60]), (0x2c65, [0x23a]), (0x2c66, [0x23e]),
  (0x2c68, [0x2c67]), (0x2c6a, [0x2c69]), (0x2c6c, [0x2c6b]), (0x2c73, [0x2c72]),
  (0x2c76, [0x2c75]), (0x2c81, [0x2c80]), (0x2c83, [0x2c82]), (0x2c85, [0x2c84]),
  (0x2c87, [0x2c86]), (0x2c89, [0x2c88]), (0x2c8b, [0x2c8a]), (0x2c8d, [0x2c8c]),
  (0x2c8f, [0x2c8e]), (0x2c91, [0x2c90]), (0x2c93, [0x2c92]), (0x2c95, [0x2c94]),
  (0x2c97, [0x2c96]), (0x2c99, [0x2c98]), (0x2c9b, [0x2c9a]), (0x2c9d, [0x2c9c]),
  (0x2c9f, [0x2c9e]), (0x2ca1, [0x2ca0]), (0x2ca3, [0x2ca2]), (0x2ca5, [0x2ca4]),
  (0x2ca7, [0x2ca6]), (0x2ca9, [0x2ca8]), (0x2cab, [0x2caa]), (0x2cad, [0x2cac]),
  (0x2caf, [0x2cae]), (0x2cb1, [0x2cb0]), (0x2cb3, [0x2cb2]), (0x2cb5, [0x2cb4]),
  (0x2cb7, [0x2cb6]), (0x2cb9, [0x2cb8]), (0x2cbb, [0x2cba]), (0x2cbd, [0x2cbc]),
  (0x2cbf, [0x2cbe]), (0x2cc1, [0x2cc0]), (0x2cc3, [0x2cc2]), (0x2cc5, [0x2cc4]),
  (0x2cc7, [0x2cc6]), (0x2cc9, [0x2cc8]), (0x2ccb, [0x2cca]), (0x2ccd, [0x2ccc]),
  (0x2ccf, [0x2cce]), (0x2cd1, [0x2cd0]), (0x2cd3, [0x2cd2]), (0x2cd5, [0x2cd4]),
  (0x2cd7, [0x2cd6]), (0x2cd9, [0x2cd8]), (0x2cdb, [0x2cda]), (0x2cdd, [0x2cdc]),
  (0x2cdf, [0x2cde]), (0x2ce1, [0x2ce0]), (0x2ce3, [0x2ce2]), (0x2cec, [0x2ceb]),
  (0x2cee, [0x2ced]), (0x2cf3, [0x2cf2]), (0x2d00, [0x10a0]), (0x2d01, [0x10a1]),
  (0x2d02, [0x10a2]), (0x2d03, [0x10a3]), (0x2d04, [0x10a4]), (0x2d05, [0x10a5]),
  (0x2d06, [0x10a6]), (0x2d07, [0x10a7]), (0x2d08, [0x10a8]), (0x2d09, [0x10a9]),
  (0x2d0a, [0x10aa]), (0x2d0b, [0x10ab]), (0x2d0c, [0x10ac]), (0x2d0d, [0x10ad]),
  (0x2d0e, [0x10ae]), (0x2d0f, [0x10af]), (0x2d10, [0x10b0]), (0x2d11, [0x10b1]),
  (0x2d12, [0x10b2]), (0x2d13, [0x10b3]), (0x2d14, [0x10b4]), (0x2d15, [0x10b5]),
  (0x2d16, [0x10b6]), (0x2d17, [0x10b7]), (0x2d18, [0x10b8]), (0x2d19, [0x10b9]),
  (0x2d1a, [0x10ba]), (0x2d1b, [0x10bb]), (0x2d1c, [0x10bc]), (0x2d1d, [0x10bd]),
  (0x2d1e, [0x10be]), (0x2d1f, [0x10bf]), (0x2d20, [0x10c0]), (0x2d21, [0x10c1]),
  (0x2d22, [0x10c2]), (0x2d23, [0x10c3]), (0x2d24, [0x10c4]), (0x2d25, [0x10c5]),
  (0x2d27, [0x10c7]), (0x2d2d, [0x10cd]), (0xa641, [0xa640]), (0xa643, [0xa642]),
  (0xa645, [0xa644]), (0xa647, [0xa646]), (0xa649, [0xa648]), (0xa64b, [0xa64a]),
  (0xa64d, [0xa64c]), (0xa64f, [0xa64e]), (0xa651, [0xa650]), (0xa653, [0xa652]),
  (0xa655, [0xa654]), (0xa657, [0xa656]), (0xa659, [0xa658]), (0xa65b, [0xa65a]),
  (0xa65d, [0xa65c]), (0xa65f, [0xa65e]), (0xa661, [0xa660]), (0xa663, [0xa662]),
  (0xa665, [0xa664]), (0xa667, [0xa666]), (0xa669, [0xa668]), (0xa66b, [0xa66a]),
  (0xa66d, [0xa66c]), (0xa681, [0xa680]), (0xa683, [0xa682]), (0xa685, [0xa684]),
  (0xa687, [0xa686]), (0xa689, [0xa688]), (0xa68b, [0xa68a]), (0xa68d, [0xa68c]),
  (0xa68f, [0xa68e]), (0xa691, [0xa690]), (0xa693, [0xa692]), (0xa695, [0xa694]),
  (0xa697, [0xa696]), (0xa699, [0xa698]), (0xa69b, [0xa69a]), (0xa723, [0xa722]),
  (0xa725, [0xa724]), (0xa727, [0xa726]), (0xa729, [0xa728]), (0xa72b, [0xa72a]),
  (0xa72d, [0xa72c]), (0xa72f, [0xa72e]), (0xa733, [0xa732]), (0xa735, [0xa734]),
  (0xa737, [0xa736]), (0xa739, [0xa738]), (0xa73b, [0xa73a]), (0xa73d, [0xa73c]),
  (0xa73f, [0xa73e]), (0xa741, [0xa740]), (0xa743, [0xa742]), (0xa745, [0xa744]),
  (0xa747, [0xa746]), (0xa749, [0xa748]), (0xa74b, [0xa74a]), (0xa74d, [0xa74c]),
  (0xa74f, [0xa74e]), (0xa751, [0xa750]), (0xa753, [0xa752]), (0xa755, [0xa754]),
  (0xa757, [0xa756]), (0xa759, [0xa758]), (0xa75b, [0xa75a]), (0xa75d, [0xa75c]),
  (0xa75f, [0xa75e]), (0xa761, [0xa760]), (0xa763, [0xa762]), (0xa765, [0xa764]),
  (0xa767, [0xa766]), (0xa769, [0xa768]), (0xa76b, [0xa76a]), (0xa76d, [0xa76c]),
  (0xa76f, [0xa76e]), (0xa77a, [0xa779]), (0xa77c, [0xa77b]), (0xa77f, [0xa77e]),
  (0xa781, [0xa780]), (0xa783, [0xa782]), (0xa785, [0xa784]), (0xa787, [0xa786]),
  (0xa78c, [0xa78b]), (0xa791, [0xa790]), (0xa793, [0xa792]), (0xa794, [0xa7c4]),
  (0xa797, [0xa796]), (0xa799, [0xa798]), (0xa79b, [0xa79a]), (0xa79d, [0xa79c]),
  (0xa79f, [0xa79e]), (0xa7a1, [0xa7a0]), (0xa7a3, [0xa7a2]), (0xa7a5, [0xa7a4]),
  (0xa7a7, [0xa7a6]), (0xa7a9, [0xa7a8]), (0xa7b5, [0xa7b4]), (0xa7b7, [0xa7b6]),
  (0xa7b9, [0xa7b8]), (0xa7bb, [0xa7ba]), (0xa7bd, [0xa7bc]), (0xa7bf, [0xa7be]),
  (0xa7c1, [0xa7c0]), (0xa7c3, [0xa7c2]), (0xa7c8, [0xa7c7]), (0xa7ca, [0xa7c9]),
  (0xa7d1, [0xa7d0]), (0xa7d7, [0xa7d6]), (0xa7d9, [0xa7d8]), (0xa7f6, [0xa7f5]),
  (0xab53, [0xa7b3]), (0xab70, [0x13a0]), (0xab71, [0x13a1]), (0xab72, [0x13a2]),
  (0xab73, [0x13a3]), (0xab74, [0x13a4]), (0xab75, [0x13a5]), (0xab76, [0x13a6]),
  (0xab77, [0x13a7]), (0xab78, [0x13a8]), (0xab79, [0x13a9]), (0xab7a, [0x13aa]),
  (0xab7b, [0x13ab]), (0xab7c, [0x13ac]), (0xab7d, [0x13ad]), (0xab7e, [0x13ae]),
  (0xab7f, [0x13af]), (0xab80, [0x13b0]), (0xab81, [0x13b1]), (0xab82, [0x13b2]),
  (0xab83, [0x13b3]), (0xab84, [0x13b4]), (0xab85, [0x13b5]), (0xab86, [0x13b6]),
  (0xab87, [0x13b7]), (0xab88, [0x13b8]), (0xab89, [0x13b9]), (0xab8a, [0x13ba]),
  (0xab8b, [0x13bb]), (0xab8c, [0x13bc]), (0xab8d, [0x13bd]), (0xab8e, [0x13be]),
  (0xab8f, [0x13bf]), (0xab90, [0x13c0]), (0xab91, [0x13c1]), (0xab92, [0x13c2]),
  (0xab93, [0x13c3]), (0xab94, [0x13c4]), (0xab95, [0x13c5]), (0xab96, [0x13c6]),
  (0xab97, [0x13c7]), (0xab98, [0x13c8]), (0xab99, [0x13c9]), (0xab9a, [0x13ca]),
  (0xab9b, [0x13cb]), (0xab9c, [0x13cc]), (0xab9d, [0x13cd]), (0xab9e, [0x13ce]),
  (0xab9f, [0x13cf]), (0xaba0, [0x13d0]), (0xaba1, [0x13d1]), (0xaba2, [0x13d2]),
  (0xaba3, [0x13d3]), (0xaba4, [0x13d4]), (0xaba5, [0x13d5]), (0xaba6, [0x13d6]),
  (0xaba7, [0x13d7]), (0xaba8, [0x13d8]), (0xaba9, [0x13d9]), (0xabaa, [0x13da]),
  (0xabab, [0x13db]), (0xabac, [0x13dc]), (0xabad, [0x13dd]), (0xabae, [0x13de]),
  (0xabaf, [0x13df]), (0xabb0, [0x13e0]), (0xabb1, [0x13e1]), (0xabb2, [0x13e2]),
  (0xabb3, [0x13e3]), (0xabb4, [0x13e4]), (0xabb5, [0x13e5]), (0xabb6, [0x13e6]),
  (0xabb7, [0x13e7]), (0xabb8, [0x13e8]), (0xabb9, [0x13e9]), (0xabba, [0x13ea]),
  (0xabbb, [0x13eb]), (0xabbc, [0x13ec]), (0xabbd, [0x13ed]), (0xabbe, [0x13ee]),
  (0xabbf, [0x13ef]), (0xfb00, [0x46, 0x46]), (0xfb01, [0x46, 0x49]), (0xfb02, [0x46, 0x4c]),
  (0xfb03, [0x46, 0x46, 0x49]), (0xfb04, [0x46, 0x46, 0x4c]), (0xfb05, [0x53, 0x54]), (0xfb06, [0x53, 0x54]),
  (0xfb13, [0x544, 0x546]), (0xfb14, [0x544, 0x535]), (0xfb15, [0x544, 0x53b]), (0xfb16, [0x54e, 0x546]),
  (0xfb17, [0x544, 0x53d]), (0xff41, [0xff21]), (0xff42, [0xff22]), (0xff43, [0xff23]),
  (0xff44, [0xff24]), (0xff45, [0xff25]), (0xff46, [0xff26]), (0xff47, [0xff27]),
  (0xff48, [0xff28]), (0xff49, [0xff29]), (0xff4a, [0xff2a]), (0xff4b, [0xff2b]),
  (0xff4c, [0xff2c]), (0xff4d, [0xff2d]), (0xff4e, [0xff2e]), (0xff4f, [0xff2f]),
  (0xff50, [0xff30]), (0xff51, [0xff31]), (0xff52, [0xff32]), (0xff53, [0xff33]),
  (0xff54, [0xff34]), (0xff55, [0xff35]), (0xff56, [0xff36]), (0xff57, [0xff37]),
  (0xff58, [0xff38]), (0xff59, [0xff39]), (0xff5a, [0xff3a]), (0x10428, [0x10400]),
  (0x10429, [0x10401]), (0x1042a, [0x10402]), (0x1042b, [0x10403]), (0x1042c, [0x10404]),
  (0x1042d, [0x10405]), (0x1042e, [0x10406]), (0x1042f, [0x10407]), (0x10430, [0x10408]),
  (0x10431, [0x10409]), (0x10432, [0x1040a]), (0x10433, [0x1040b]), (0x10434, [0x1040c]),
  (0x10435, [0x1040d]), (0x10436, [0x1040e]), (0x10437, [0x1040f]), (0x10438, [0x10410]),
  (0x10439, [0x10411]), (0x1043a, [0x10412]), (0x1043b, [0x10413]), (0x1043c, [0x10414]),
  (0x1043d, [0x10415]), (0x1043e, [0x10416]), (0x1043f, [0x10417]), (0x10440, [0x10418]),
  (0x10441, [0x10419]), (0x10442, [0x1041a]), (0x10443, [0x1041b]), (0x10444, [0x1041c]),
  (0x10445, [0x1041d]), (0x10446, [0x1041e]), (0x10447, [0x1041f]), (0x10448, [0x10420]),
  (0x10449, [0x10421]), (0x1044a, [0x10422]), (0x1044b, [0x10423]), (0x1044c, [0x10424]),
  (0x1044d, [0x10425]), (0x1044e, [0x10426]), (0x1044f, [0x10427]), (0x104d8, [0x104b0]),
  (0x104d9, [0x104b1]), (0x104da, [0x104b2]), (0x104db, [0x104b3]), (0x104dc, [0x104b4]),
  (0x104dd, [0x104b5]), (0x104de, [0x104b6]), (0x104df, [0x104b7]), (0x104e0, [0x104b8]),
  (0x104e1, [0x104b9]), (0x104e2, [0x104ba]), (0x104e3, [0x104bb]), (0x104e4, [0x104bc]),
  (0x104e5, [0x104bd]), (0x104e6, [0x104be]), (0x104e7, [0x104bf]), (0x104e8, [0x104c0]),
  (0x104e9, [0x104c1]), (0x104ea, [0x104c2]), (0x104eb, [0x104c3]), (0x104ec, [0x104c4]),
  (0x104ed, [0x104c5]), (0x104ee, [0x104c6]), (0x104ef, [0x104c7]), (0x104f0, [0x104c8]),
  (0x104f1, [0x104c9]), (0x104f2, [0x104ca]), (0x104f3, [0x104cb]), (0x104f4, [0x104cc]),
  (0x104f5, [0x104cd]), (0x104f6, [0x104ce]), (0x104f7, [0x104cf]), (0x104f8, [0x104d0]),
  (0x104f9, [0x104d1]), (0x104fa, [0x104d2]), (0x104fb, [0x104d3]), (0x10597, [0x10570]),
  (0x10598, [0x10571]), (0x10599, [0x10572]), (0x1059a, [0x10573]), (0x1059b, [0x10574]),
  (0x1059c, [0x10575]), (0x1059d, [0x10576]), (0x1059e, [0x10577]), (0x1059f, [0x10578]),
  (0x105a0, [0x10579]), (0x105a1, [0x1057a]), (0x105a3, [0x1057c]), (0x105a4, [0x1057d]),
  (0x105a5, [0x1057e]), (0x105a6, [0x1057f]), (0x105a7, [0x10580]), (0x105a8, [0x10581]),
  (0x105a9, [0x10582]), (0x105aa, [0x10583]), (0x105ab, [0x10584]), (0x105ac, [0x10585]),
  (0x105ad, [0x10586]), (0x105ae, [0x10587]), (0x105af, [0x10588]), (0x105b0, [0x10589]),
  (0x105b1, [0x1058a]), (0x105b3, [0x1058c]), (0x105b4, [0x1058d]), (0x105b5, [0x1058e]),
  (0x105b6, [0x1058f]), (0x105b7, [0x10590]), (0x105b8, [0x10591]), (0x105b9, [0x10592]),
  (0x105bb, [0x10594]), (0x105bc, [0x10595]), (0x10cc0, [0x10c80]), (0x10cc1, [0x10c81]),
  (0x10cc2, [0x10c82]), (0x10cc3, [0x10c83]), (0x10cc4, [0x10c84]), (0x10cc5, [0x10c85]),
  (0x10cc6, [0x10c86]), (0x10cc7, [0x10c87]), (0x10cc8, [0x10c88]), (0x10cc9, [0x10c89]),
  (0x10cca, [0x10c8a]), (0x10ccb, [0x10c8b]), (0x10ccc, [0x10c8c]), (0x10ccd, [0x10c8d]),
  (0x10cce, [0x10c8e]), (0x10ccf, [0x10c8f]), (0x10cd0, [0x10c90]), (0x10cd1, [0x10c91]),
  (0x10cd2, [0x10c92]), (0x10cd3, [0x10c93]), (0x10cd4, [0x10c94]), (0x10cd5, [0x10c95]),
  (0x10cd6, [0x10c96]), (0x10cd7, [0x10c97]), (0x10cd8, [0x10c98]), (0x10cd9, [0x10c99]),
  (0x10cda, [0x10c9a]), (0x10cdb, [0x10c9b]), (0x10cdc, [0x10c9c]), (0x10cdd, [0x10c9d]),
  (0x10cde, [0x10c9e]), (0x10cdf, [0x10c9f]), (0x10ce0, [0x10ca0]), (0x10ce1, [0x10ca1]),
  (0x10ce2, [0x10ca2]), (0x10ce3, [0x10ca3]), (0x10ce4, [0x10ca4]), (0x10ce5, [0x10ca5]),
  (0x10ce6, [0x10ca6]), (0x10ce7, [0x10ca7]), (0x10ce8, [0x10ca8]), (0x10ce9, [0x10ca9]),
  (0x10cea, [0x10caa]), (0x10ceb, [0x10cab]), (0x10cec, [0x10cac]), (0x10ced, [0x10cad]),
  (0x10cee, [0x10cae]), (0x10cef, [0x10caf]), (0x10cf0, [0x10cb0]), (0x10cf1, [0x10cb1]),
  (0x10cf2, [0x10cb2]), (0x118c0, [0x118a0]), (0x118c1, [0x118a1]), (0x118c2, [0x118a2]),
  (0x118c3, [0x118a3]), (0x118c4, [0x118a4]), (0x118c5, [0x118a5]), (0x118c6, [0x118a6]),
  (0x118c7, [0x118a7]), (0x118c8, [0x118a8]), (0x118c9, [0x118a9]), (0x118ca, [0x118aa]),
  (0x118cb, [0x118ab]), (0x118cc, [0x118ac]), (0x118cd, [0x118ad]), (0x118ce, [0x118ae]),
  (0x118cf, [0x118af]), (0x118d0, [0x118b0]), (0x118d1, [0x118b1]), (0x118d2, [0x118b2]),
  (0x118d3, [0x118b3]), (0x118d4, [0x118b4]), (0x118d5, [0x118b5]), (0x118d6, [0x118b6]),
  (0x118d7, [0x118b7]), (0x118d8, [0x118b8]), (0x118d9, [0x118b9]), (0x118da, [0x118ba]),
  (0x118db, [0x118bb]), (0x118dc, [0x118bc]), (0x118dd, [0x118bd]), (0x118de, [0x118be]),
  (0x118df, [0x118bf]), (0x16e60, [0x16e40]), (0x16e61, [0x16e41]), (0x16e62, [0x16e42]),
  (0x16e63, [0x16e43]), (0x16e64, [0x16e44]), (0x16e65, [0x16e45]), (0x16e66, [0x16e46]),
  (0x16e67, [0x16e47]), (0x16e68, [0x16e48]), (0x16e69, [0x16e49]), (0x16e6a, [0x16e4a]),
  (0x16e6b, [0x16e4b]), (0x16e6c, [0x16e4c]), (0x16e6d, [0x16e4d]), (0x16e6e, [0x16e4e]),
  (0x16e6f, [0x16e4f]), (0x16e70, [0x16e50]), (0x16e71, [0x16e51]), (0x16e72, [0x16e52]),
  (0x16e73, [0x16e53]), (0x16e74, [0x16e54]), (0x16e75, [0x16e55]), (0x16e76, [0x16e56]),
  (0x16e77, [0x16e57]), (0x16e78, [0x16e58]), (0x16e79, [0x16e59]), (0x16e7a, [0x16e5a]),
  (0x16e7b, [0x16e5b]), (0x16e7c, [0x16e5c]), (0x16e7d, [0x16e5d]), (0x16e7e, [0x16e5e]),
  (0x16e7f, [0x16e5f]), (0x1e922, [0x1e900]), (0x1e923, [0x1e901]), (0x1e924, [0x1e902]),
  (0x1e925, [0x1e903]), (0x1e926, [0x1e904]), (0x1e927, [0x1e905]), (0x1e928, [0x1e906]),
  (0x1e929, [0x1e907]), (0x1e92a, [0x1e908]), (0x1e92b, [0x1e909]), (0x1e92c, [0x1e90a]),
  (0x1e92d, [0x1e90b]), (0x1e92e, [0x1e90c]), (0x1e92f, [0x1e90d]), (0x1e930, [0x1e90e]),
  (0x1e931, [0x1e90f]), (0x1e932, [0x1e910]), (0x1e933, [0x1e911]), (0x1e934, [0x1e912]),
  (0x1e935, [0x1e913]), (0x1e936, [0x1e914]), (0x1e937, [0x1e915]), (0x1e938, [0x1e916]),
  (0x1e939, [0x1e917]), (0x1e93a, [0x1e918]), (0x1e93b, [0x1e919]), (0x1e93c, [0x1e91a]),
  (0x1e93d, [0x1e91b]), (0x1e93e, [0x1e91c]), (0x1e93f, [0x1e91d]), (0x1e940, [0x1e91e]),
  (0x1e941, [0x1e91f]), (0x1e942, [0x1e920]), (0x1e943, [0x1e921])]

/-- Models Rust `char::to_uppercase`: ASCII scalar values map `a`-`z` to
`A`-`Z` (Lean's `Char.toUpper` is exactly that mapping on ASCII), and
non-ASCII scalar values go through the Unicode full uppercase mapping table,
possibly expanding to several scalar values. -/
def charToUppercase (c : Char) : List Char :=
  if c.toNat < 0x80 then [c.toUpper]
  else
    match unicodeUpperTable.find? (fun e => e.1 == c.toNat) with
    | some e => e.2.map Char.ofNat
    | none => [c]

/-- Models Rust `str::to_uppercase()`: the concatenation of the uppercase
mapping of each scalar value in order. -/
def to_uppercase (s : List Char) : List Char := s.flatMap charToUppercase

/-- Models Rust `&str` ordering (`Ord`): byte-wise lexicographic order on the
UTF-8 encoding, which coincides with lexicographic order on scalar values. -/
def strLe : List Char → List Char → Bool
  | [], _ => true
  | _ :: _, [] => false
  | a :: as, b :: bs => if a < b then true else if b < a then false else strLe as bs

/-- Insert a string into a `strLe`-sorted list of strings. -/
def insertSorted (x : List Char) : List (List Char) → List (List Char)
  | [] => [x]
  | y :: ys => if strLe x y then x :: y :: ys else y :: insertSorted x ys

/-- Models `split_words.sort_unstable()`: produces the `strLe`-sorted
permutation.  Any correct ascending sort yields this exact sequence (elements
comparing equal under a total order on strings are identical strings), so an
insertion sort is an exact model of Rust's unstable sort here. -/
def sortStrs (l : List (List Char)) : List (List Char) := l.foldr insertSorted []

/-- Models `str::split('_')`: splits at every `'_'`, keeping empty fragments,
and yields `[""]` on the empty string. -/
def splitUnderscore : List Char → List (List Char)
  | [] => [[]]
  | c :: rest =>
    let r := splitUnderscore rest
    if c = '_' then [] :: r
    else
      match r with
      | [] => [[c]]
      | w :: ws => (c :: w) :: ws

/-- Models `Vec<&str>::join("_")`. -/
def joinUnderscore : List (List Char) → List Char
  | [] => []
  | [w] => w
  | w :: ws => w ++ '_' :: joinUnderscore ws

/-- Embedding of `sort_by_words`: split on `'_'`, sort the fragments, rejoin
with `'_'`. -/
def sort_by_words (name : List Char) : List Char :=
  joinUnderscore (sortStrs (splitUnderscore name))

/-- Embedding of `find_match_by_sorted_words`: a fold over the candidates that
replaces the accumulator by every candidate whose sorted-words normalization
equals the lookup's. -/
def find_match_by_sorted_words (iter_names : List (List Char)) (lookup : List Char) :
    Option (List Char) :=
  iter_names.foldl
    (fun result candidate =>
      if sort_by_words candidate = sort_by_words lookup then some candidate else result)
    none

/-- Tier 2 of `find_best_match_for_name`: `filter_map` keeps the candidates
within `max_dist` paired with their distance, and the fold keeps the running
best, replacing it only on a strictly smaller distance. -/
def levenshteinMatch (iter_names : List (List Char)) (lookup : List Char) (max_dist : Nat) :
    Option (List Char × Nat) :=
  (iter_names.filterMap (fun name =>
      if lev_distance lookup name ≤ max_dist then
        some (name, lev_distance lookup name)
      else none)).foldl
    (fun result cd =>
      match result with
      | none => some cd
      | some cd' => some (if cd.2 < cd'.2 then cd else cd'))
    none

/-- Embedding of `find_best_match_for_name`: default threshold
`max(lookup.len(), 3) / 3` (byte length!), then tier 1 (first case-insensitive
match), tier 2 (best Levenshtein match within the threshold), tier 3 (sorted
word match). -/
def find_best_match_for_name (iter_names : List (List Char)) (lookup : List Char)
    (dist : Option Nat) : Option (List Char) :=
  match iter_names.find? (fun candidate => to_uppercase candidate == to_uppercase lookup) with
  | some c => some c
  | none =>
    match levenshteinMatch iter_names lookup (dist.getD (max (utf8Len lookup) 3 / 3)) with
    | some cd => some cd.1
    | none => find_match_by_sorted_words iter_names lookup

/-! ## Basic facts about `levRec` -/

lemma levRec_nil_left (b : List Char) : levRec [] b = b.length := by
  simp [levRec]

lemma levRec_nil_right (a : List Char) : levRec a [] = a.length := by
  cases a <;> simp [levRec]

lemma levRec_cons_cons (x y : Char) (xs ys : List Char) :
    levRec (x :: xs) (y :: ys) =
      if x = y then levRec xs ys
      else 1 + min (levRec xs (y :: ys)) (min (levRec (x :: xs) ys) (levRec xs ys)) := by
  rw [levRec]

lemma levRec_self (a : List Char) : levRec a a = 0 := by
  induction a with
  | nil => simp [levRec_nil_left]
  | cons x xs ih => rw [levRec_cons_cons]; simp [ih]

/-- Dropping the head of the left argument, or adding a head on the right,
changes `levRec` by at most one (joint statement for the mutual induction). -/
lemma levRec_left_pair :
    ∀ (N : Nat) (as b : List Char), as.length + b.length ≤ N →
      (∀ c, levRec (c :: as) b ≤ 1 + levRec as b) ∧
      (∀ w, levRec as b ≤ 1 + levRec as (w :: b)) := by
  intro N
  induction N with
  | zero =>
    intro as b hlen
    have ha : as = [] := by cases as <;> simp_all
    have hb : b = [] := by cases b <;> simp_all
    subst ha; subst hb
    refine ⟨fun c => ?_, fun w => ?_⟩
    · simp [levRec_nil_right, levRec_nil_left]
    · simp [levRec_nil_left, levRec_nil_right]
  | succ N ih =>
    intro as b hlen
    refine ⟨fun c => ?_, fun w => ?_⟩
    · match b with
      | [] => simp [levRec_nil_right]; omega
      | w :: bs =>
        rw [levRec_cons_cons]
        by_cases hc : c = w
        · have h4 := (ih as bs (by simp at hlen ⊢; omega)).2 w
          simp only [if_pos hc]
          exact h4
        · simp only [if_neg hc]
          omega
    · match as with
      | [] => simp [levRec_nil_left]; omega
      | x :: xs =>
        rw [levRec_cons_cons]
        by_cases hx : x = w
        · have h1 := (ih xs b (by simp at hlen ⊢; omega)).1 x
          simp only [if_pos hx]
          exact h1
        · have h1 := (ih xs b (by simp at hlen ⊢; omega)).1 x
          have h4 := (ih xs b (by simp at hlen ⊢; omega)).2 w
          simp only [if_neg hx]
          omega

/-- Adding a head on the left, or dropping the head of the right argument,
changes `levRec` by at most one (joint statement for the mutual induction). -/
lemma levRec_right_pair :
    ∀ (N : Nat) (as b : List Char), as.length + b.length ≤ N →
      (∀ w, levRec as (w :: b) ≤ 1 + levRec as b) ∧
      (∀ x, levRec as b ≤ 1 + levRec (x :: as) b) := by
  intro N
  induction N with
  | zero =>
    intro as b hlen
    have ha : as = [] := by cases as <;> simp_all
    have hb : b = [] := by cases b <;> simp_all
    subst ha; subst hb
    refine ⟨fun w => ?_, fun x => ?_⟩
    · simp [levRec_nil_left]
    · simp [levRec_nil_left, levRec_nil_right]
  | succ N ih =>
    intro as b hlen
    refine ⟨fun w => ?_, fun x => ?_⟩
    · match as with
      | [] => simp [levRec_nil_left]; omega
      | x :: xs =>
        rw [levRec_cons_cons]
        by_cases hx : x = w
        · have h2 := (ih xs b (by simp at hlen ⊢; omega)).2 x
          simp only [if_pos hx]
          subst hx
          exact h2
        · simp only [if_neg hx]
          omega
    · match b with
      | [] => simp [levRec_nil_right]; omega
      | w :: bs =>
        rw [levRec_cons_cons]
        by_cases hx : x = w
        · have h3 := (ih as bs (by simp at hlen ⊢; omega)).1 w
          simp only [if_pos hx]
          exact h3
        · have h3 := (ih as bs (by simp at hlen ⊢; omega)).1 w
          have h2 := (ih as bs (by simp at hlen ⊢; omega)).2 x
          simp only [if_neg hx]
          omega

lemma levRec_cons_left_le (c : Char) (as b : List Char) :
    levRec (c :: as) b ≤ 1 + levRec as b :=
  (levRec_left_pair (as.length + b.length) as b le_rfl).1 c

lemma levRec_le_cons_right (w : Char) (as b : List Char) :
    levRec as b ≤ 1 + levRec as (w :: b) :=
  (levRec_left_pair (as.length + b.length) as b le_rfl).2 w

lemma levRec_cons_right_le (w : Char) (as b : List Char) :
    levRec as (w :: b) ≤ 1 + levRec as b :=
  (levRec_right_pair (as.length + b.length) as b le_rfl).1 w

lemma levRec_le_cons_left (x : Char) (as b : List Char) :
    levRec as b ≤ 1 + levRec (x :: as) b :=
  (levRec_right_pair (as.length + b.length) as b le_rfl).2 x

/-- Substituting the head character changes `levRec` by at most one. -/
lemma levRec_subst_head_le (c d : Char) (s b : List Char) :
    levRec (c :: s) b ≤ 1 + levRec (d :: s) b := by
  induction b with
  | nil => simp [levRec_nil_right]
  | cons w bs ih =>
    rw [levRec_cons_cons, levRec_cons_cons]
    by_cases hc : c = w <;> by_cases hd : d = w
    · simp only [if_pos hc, if_pos hd]; omega
    · have h4 := levRec_le_cons_right w s bs
      have h2 := levRec_le_cons_left d s bs
      simp only [if_pos hc, if_neg hd]
      omega
    · simp only [if_neg hc, if_pos hd]
      omega
    · simp only [if_neg hc, if_neg hd]
      omega

/-! ## The one-step triangle inequality for `levRec` -/

/-- Performing one edit anywhere changes `levRec` against any third string by
at most one.  Joint statement covering the three edit shapes, by lexicographic
induction on (length of the untouched prefix, length of `b`). -/
lemma levRec_edit_triple :
    ∀ (n : Nat) (p : List Char), p.length ≤ n → ∀ (b s : List Char) (c d : Char),
      levRec (p ++ s) b ≤ 1 + levRec (p ++ c :: s) b ∧
      levRec (p ++ c :: s) b ≤ 1 + levRec (p ++ s) b ∧
      levRec (p ++ c :: s) b ≤ 1 + levRec (p ++ d :: s) b := by
  intro n
  induction n with
  | zero =>
    intro p hp b s c d
    have hp0 : p = [] := by cases p <;> simp_all
    subst hp0
    exact ⟨levRec_le_cons_left c s b, levRec_cons_left_le c s b, levRec_subst_head_le c d s b⟩
  | succ n ih =>
    intro p hp b s c d
    match p with
    | [] =>
      exact ⟨levRec_le_cons_left c s b, levRec_cons_left_le c s b, levRec_subst_head_le c d s b⟩
    | z :: p' =>
      have hp' : p'.length ≤ n := by simp at hp; omega
      induction b with
      | nil =>
        simp only [levRec_nil_right, List.length_append, List.length_cons]
        omega
      | cons w bs ihb =>
        obtain ⟨j1, j2, j3⟩ := ihb
        simp only [List.cons_append] at j1 j2 j3 ⊢
        rw [levRec_cons_cons, levRec_cons_cons, levRec_cons_cons]
        obtain ⟨k1, k2, k3⟩ := ih p' hp' (w :: bs) s c d
        obtain ⟨l1, l2, l3⟩ := ih p' hp' bs s c d
        by_cases hz : z = w
        · simp only [if_pos hz]
          exact ⟨l1, l2, l3⟩
        · simp only [if_neg hz]
          refine ⟨?_, ?_, ?_⟩ <;> omega

/-- One edit step changes `levRec` against any third string by at most one. -/
lemma levRec_editStep_le {a y : List Char} (h : EditStep a y) (b : List Char) :
    levRec a b ≤ 1 + levRec y b := by
  cases h with
  | insert p s c => exact (levRec_edit_triple p.length p le_rfl b s c c).1
  | delete p s c => exact (levRec_edit_triple p.length p le_rfl b s c c).2.1
  | subst p s c d => exact (levRec_edit_triple p.length p le_rfl b s c d).2.2

/-! ## Edit paths: basic combinators -/

lemma editPath_trans {m n : Nat} {a b c : List Char}
    (h1 : EditPath m a b) (h2 : EditPath n b c) : EditPath (m + n) a c := by
  induction h1 with
  | refl xs => simpa using h2
  | step hs _ ih =>
    have := EditPath.step hs (ih h2)
    simpa [Nat.succ_add] using this

lemma editStep_cons (c : Char) {xs ys : List Char} (h : EditStep xs ys) :
    EditStep (c :: xs) (c :: ys) := by
  cases h with
  | insert p s d => exact EditStep.insert (c :: p) s d
  | delete p s d => exact EditStep.delete (c :: p) s d
  | subst p s d e => exact EditStep.subst (c :: p) s d e

lemma editPath_cons (c : Char) {n : Nat} {xs ys : List Char} (h : EditPath n xs ys) :
    EditPath n (c :: xs) (c :: ys) := by
  induction h with
  | refl xs => exact .refl _
  | step hs _ ih => exact .step (editStep_cons c hs) ih

lemma editStep_insert_head (c : Char) (s : List Char) : EditStep s (c :: s) :=
  EditStep.insert [] s c

lemma editStep_delete_head (c : Char) (s : List Char) : EditStep (c :: s) s :=
  EditStep.delete [] s c

lemma editStep_subst_head (c d : Char) (s : List Char) : EditStep (c :: s) (d :: s) :=
  EditStep.subst [] s c d

lemma editPath_nil_any (b : List Char) : EditPath b.length [] b := by
  induction b with
  | nil => exact .refl []
  | cons y ys ih =>
    have : EditPath (ys.length + 1) [] (y :: ys) :=
      editPath_trans ih (.step (editStep_insert_head y ys) (.refl _))
    simpa using this

lemma editPath_any_nil (a : List Char) : EditPath a.length a [] := by
  induction a with
  | nil => exact .refl []
  | cons x xs ih => exact .step (editStep_delete_head x xs) ih

/-! ## `levRec` is the minimal number of edits -/

/-- Upper bound: `levRec a b` edits always suffice to turn `a` into `b`. -/
lemma editPath_levRec :
    ∀ (N : Nat) (a b : List Char), a.length + b.length ≤ N → EditPath (levRec a b) a b := by
  intro N
  induction N with
  | zero =>
    intro a b h
    have ha : a = [] := by cases a <;> simp_all
    have hb : b = [] := by cases b <;> simp_all
    subst ha; subst hb
    simpa [levRec_nil_left] using EditPath.refl ([] : List Char)
  | succ N ih =>
    intro a b h
    match a, b with
    | [], b => simpa [levRec_nil_left] using editPath_nil_any b
    | x :: xs, [] => simpa [levRec_nil_right] using editPath_any_nil (x :: xs)
    | x :: xs, y :: ys =>
      rw [levRec_cons_cons]
      by_cases hxy : x = y
      · subst hxy
        simp only [if_pos rfl]
        exact editPath_cons x (ih xs ys (by simp at h ⊢; omega))
      · simp only [if_neg hxy]
        have hA : EditPath (levRec xs (y :: ys)) xs (y :: ys) :=
          ih xs (y :: ys) (by simp at h ⊢; omega)
        have hB : EditPath (levRec (x :: xs) ys) (x :: xs) ys :=
          ih (x :: xs) ys (by simp at h ⊢; omega)
        have hC : EditPath (levRec xs ys) xs ys :=
          ih xs ys (by simp at h ⊢; omega)
        rcases min_cases (levRec xs (y :: ys)) (min (levRec (x :: xs) ys) (levRec xs ys)) with
          ⟨hm, _⟩ | ⟨hm, _⟩
        · rw [hm, Nat.add_comm]
          exact .step (editStep_delete_head x xs) hA
        · rcases min_cases (levRec (x :: xs) ys) (levRec xs ys) with ⟨hm2, _⟩ | ⟨hm2, _⟩
          · rw [hm, hm2, Nat.add_comm]
            exact editPath_trans hB (.step (editStep_insert_head y ys) (.refl _))
          · rw [hm, hm2, Nat.add_comm]
            exact .step (editStep_subst_head x y xs) (editPath_cons y hC)

/-- Lower bound: no sequence of fewer than `levRec a b` edits can turn `a`
into `b`. -/
lemma levRec_le_editPath {n : Nat} {a b : List Char} (h : EditPath n a b) :
    levRec a b ≤ n := by
  induction h with
  | refl xs => simp [levRec_self]
  | step hs hp ih =>
    rename_i m xs ys zs
    have := levRec_editStep_le hs zs
    omega

/-! ## Reversal and the snoc recurrence -/

lemma editStep_reverse {a b : List Char} (h : EditStep a b) :
    EditStep a.reverse b.reverse := by
  cases h with
  | insert p s c =>
    simpa [List.reverse_append] using EditStep.insert s.reverse p.reverse c
  | delete p s c =>
    simpa [List.reverse_append] using EditStep.delete s.reverse p.reverse c
  | subst p s c d =>
    simpa [List.reverse_append] using EditStep.subst s.reverse p.reverse c d

lemma editPath_reverse {n : Nat} {a b : List Char} (h : EditPath n a b) :
    EditPath n a.reverse b.reverse := by
  induction h with
  | refl xs => exact .refl _
  | step hs _ ih => exact .step (editStep_reverse hs) ih

lemma levRec_reverse (a b : List Char) : levRec a.reverse b.reverse = levRec a b := by
  apply Nat.le_antisymm
  · exact levRec_le_editPath (editPath_reverse
      (editPath_levRec (a.length + b.length) a b le_rfl))
  · have h := editPath_reverse
      (editPath_levRec (a.reverse.length + b.reverse.length) a.reverse b.reverse le_rfl)
    simp only [List.reverse_reverse] at h
    exact levRec_le_editPath h

lemma levRec_snoc_snoc (p q : List Char) (x y : Char) :
    levRec (p ++ [x]) (q ++ [y]) =
      if x = y then levRec p q
      else 1 + min (levRec p (q ++ [y])) (min (levRec (p ++ [x]) q) (levRec p q)) := by
  have e1 : levRec (p ++ [x]) (q ++ [y]) = levRec (x :: p.reverse) (y :: q.reverse) := by
    rw [← levRec_reverse]; simp
  have e2 : levRec p (q ++ [y]) = levRec p.reverse (y :: q.reverse) := by
    rw [← levRec_reverse]; simp
  have e3 : levRec (p ++ [x]) q = levRec (x :: p.reverse) q.reverse := by
    rw [← levRec_reverse]; simp
  have e4 : levRec p q = levRec p.reverse q.reverse := (levRec_reverse p q).symm
  rw [e1, levRec_cons_cons, ← e2, ← e3, ← e4]

/-! ## The rolling-row loop computes `levRec` -/

lemma getD_set_self (l : List Nat) (i v : Nat) (h : i < l.length) :
    (l.set i v).getD i 0 = v := by
  rw [List.getD_eq_getElem?_getD, List.getElem?_set_self h]; rfl

lemma getD_set_ne (l : List Nat) {i k : Nat} (v : Nat) (h : i ≠ k) :
    (l.set i v).getD k 0 = l.getD k 0 := by
  rw [List.getD_eq_getElem?_getD, List.getElem?_set_ne h, ← List.getD_eq_getElem?_getD]

lemma levInner_cons (sc tc : Char) (rest : List Char) (j : Nat) (dcol : List Nat)
    (current tLast : Nat) :
    levInner sc (tc :: rest) j dcol current tLast =
      levInner sc rest (j + 1)
        (if sc = tc then dcol.set (j + 1) current
         else dcol.set (j + 1) (min (min current (dcol.getD (j + 1) 0)) (dcol.getD j 0) + 1))
        (dcol.getD (j + 1) 0) j := rfl

lemma levOuter_cons (sc : Char) (rest : List Char) (i : Nat) (b : List Char)
    (dcol : List Nat) (tLast : Nat) :
    levOuter (sc :: rest) i b dcol tLast =
      levOuter rest (i + 1) b
        (levInner sc b 0 (dcol.set 0 (i + 1)) i tLast).1
        (levInner sc b 0 (dcol.set 0 (i + 1)) i tLast).2 := rfl

/-- Invariant of the inner loop: entering the loop with `j = pre.length`
characters of `b` already processed, `current` holding the previous row's
value at column `j`, `dcol[0..j]` holding the new row (for prefix `p ++ [sc]`
of `a`) and `dcol[j+1..len b]` still holding the previous row (for prefix
`p`), the loop fills `dcol[0..len b]` with the new row and sets `t_last` to
`len b - 1` (when it runs at all). -/
lemma levInner_spec (b p : List Char) (sc : Char) :
    ∀ (tcs pre : List Char) (dcol : List Nat) (current tLast : Nat),
      b = pre ++ tcs →
      b.length < dcol.length →
      current = levRec p (b.take pre.length) →
      (∀ k, k ≤ pre.length → dcol.getD k 0 = levRec (p ++ [sc]) (b.take k)) →
      (∀ k, pre.length < k → k ≤ b.length → dcol.getD k 0 = levRec p (b.take k)) →
      (levInner sc tcs pre.length dcol current tLast).1.length = dcol.length ∧
      (∀ k, k ≤ b.length →
        (levInner sc tcs pre.length dcol current tLast).1.getD k 0 =
          levRec (p ++ [sc]) (b.take k)) ∧
      (levInner sc tcs pre.length dcol current tLast).2 =
        (if tcs.isEmpty then tLast else b.length - 1) := by
  intro tcs
  induction tcs with
  | nil =>
    intro pre dcol current tLast hb hlen hcur hnew hold
    rw [List.append_nil] at hb
    refine ⟨rfl, ?_, rfl⟩
    intro k hk
    exact hnew k (by rw [← hb]; exact hk)
  | cons tc rest ih =>
    intro pre dcol current tLast hb hlen hcur hnew hold
    have hjb : pre.length < b.length := by rw [hb]; simp
    have htakej : b.take pre.length = pre := by rw [hb]; exact List.take_left pre (tc :: rest)
    have htakej1 : b.take (pre.length + 1) = pre ++ [tc] := by
      rw [hb]; simpa using @List.take_append _ pre (tc :: rest) 1
    have hnext : dcol.getD (pre.length + 1) 0 = levRec p (b.take (pre.length + 1)) :=
      hold _ (Nat.lt_succ_self _) (by omega)
    have hdj : dcol.getD pre.length 0 = levRec (p ++ [sc]) (b.take pre.length) :=
      hnew _ le_rfl
    have hsnoc := levRec_snoc_snoc p (b.take pre.length) sc tc
    rw [htakej, ← htakej1] at hsnoc
    have hval : (if sc = tc then dcol.set (pre.length + 1) current
         else dcol.set (pre.length + 1)
           (min (min current (dcol.getD (pre.length + 1) 0)) (dcol.getD pre.length 0) + 1))
         = dcol.set (pre.length + 1) (levRec (p ++ [sc]) (b.take (pre.length + 1))) := by
      by_cases hsctc : sc = tc
      · rw [if_pos hsctc, hsnoc, if_pos hsctc, hcur, htakej]
      · rw [if_neg hsctc, hsnoc, if_neg hsctc, hcur, hnext, hdj, htakej]
        congr 1
        omega
    rw [levInner_cons, hval]
    have hb' : b = (pre ++ [tc]) ++ rest := by rw [hb]; simp
    have hlen' : b.length < (dcol.set (pre.length + 1)
        (levRec (p ++ [sc]) (b.take (pre.length + 1)))).length := by
      rw [List.length_set]; exact hlen
    have hcur' : dcol.getD (pre.length + 1) 0 = levRec p (b.take (pre ++ [tc]).length) := by
      rw [hnext]; simp
    have hnew' : ∀ k, k ≤ (pre ++ [tc]).length →
        (dcol.set (pre.length + 1) (levRec (p ++ [sc]) (b.take (pre.length + 1)))).getD k 0 =
          levRec (p ++ [sc]) (b.take k) := by
      intro k hk
      simp only [List.length_append, List.length_cons, List.length_nil] at hk
      rcases Nat.lt_or_ge k (pre.length + 1) with hlt | hge
      · rw [getD_set_ne _ _ (by omega)]
        exact hnew k (by omega)
      · have hkeq : k = pre.length + 1 := by omega
        subst hkeq
        rw [getD_set_self _ _ _ (by omega)]
    have hold' : ∀ k, (pre ++ [tc]).length < k → k ≤ b.length →
        (dcol.set (pre.length + 1) (levRec (p ++ [sc]) (b.take (pre.length + 1)))).getD k 0 =
          levRec p (b.take k) := by
      intro k h1 h2
      simp only [List.length_append, List.length_cons, List.length_nil] at h1
      rw [getD_set_ne _ _ (by omega)]
      exact hold k (by omega) h2
    obtain ⟨c1, c2, c3⟩ := ih (pre ++ [tc])
      (dcol.set (pre.length + 1) (levRec (p ++ [sc]) (b.take (pre.length + 1))))
      (dcol.getD (pre.length + 1) 0) pre.length hb' hlen' hcur' hnew' hold'
    have hlen1 : (pre ++ [tc]).length = pre.length + 1 := by simp
    rw [hlen1] at c1 c2 c3
    refine ⟨?_, c2, ?_⟩
    · rw [c1, List.length_set]
    · rw [c3]
      rcases rest with _ | ⟨r, rs⟩
      · have : b.length = pre.length + 1 := by rw [hb]; simp
        simp [this]
      · simp

/-- Invariant of the outer loop: the row `dcol` holds the distances from the
already-processed prefix `pa` of `a` to every prefix of `b`; running the
remaining characters `scs` updates it to the row for `pa ++ scs`. -/
lemma levOuter_spec (b : List Char) (hb : b ≠ []) :
    ∀ (scs pa : List Char) (dcol : List Nat) (tLast : Nat),
      b.length < dcol.length →
      (∀ k, k ≤ b.length → dcol.getD k 0 = levRec pa (b.take k)) →
      (levOuter scs pa.length b dcol tLast).1.length = dcol.length ∧
      (∀ k, k ≤ b.length →
        (levOuter scs pa.length b dcol tLast).1.getD k 0 = levRec (pa ++ scs) (b.take k)) ∧
      (levOuter scs pa.length b dcol tLast).2 = (if scs.isEmpty then tLast else b.length - 1) := by
  intro scs
  induction scs with
  | nil =>
    intro pa dcol tLast hlen hrow
    refine ⟨rfl, ?_, rfl⟩
    intro k hk
    rw [List.append_nil]
    exact hrow k hk
  | cons sc rest ih =>
    intro pa dcol tLast hlen hrow
    rw [levOuter_cons]
    have h0 : 0 < dcol.length := by omega
    obtain ⟨i1, i2, i3⟩ := levInner_spec b pa sc b [] (dcol.set 0 (pa.length + 1))
      pa.length tLast (by simp) (by rw [List.length_set]; exact hlen)
      (by simp [levRec_nil_right])
      (by
        intro k hk
        simp only [List.length_nil] at hk
        have hk0 : k = 0 := by omega
        subst hk0
        rw [getD_set_self _ _ _ h0]
        simp [levRec_nil_right])
      (by
        intro k h1 h2
        simp only [List.length_nil] at h1
        rw [getD_set_ne _ _ (by omega)]
        exact hrow k h2)
    simp only [List.length_nil] at i1 i2 i3
    obtain ⟨o1, o2, o3⟩ := ih (pa ++ [sc])
      (levInner sc b 0 (dcol.set 0 (pa.length + 1)) pa.length tLast).1
      (levInner sc b 0 (dcol.set 0 (pa.length + 1)) pa.length tLast).2
      (by rw [i1, List.length_set]; exact hlen) i2
    have hlen1 : (pa ++ [sc]).length = pa.length + 1 := by simp
    rw [hlen1] at o1 o2 o3
    refine ⟨?_, ?_, ?_⟩
    · rw [o1, i1, List.length_set]
    · intro k hk
      rw [o2 k hk]
      simp
    · rw [o3, i3]
      have hbe : b.isEmpty = false := by
        cases b with
        | nil => exact absurd rfl hb
        | cons _ _ => rfl
      rcases rest with _ | ⟨r, rs⟩ <;> simp [hbe]

lemma length_le_utf8Len (b : List Char) : b.length ≤ utf8Len b := by
  induction b with
  | nil => simp [utf8Len]
  | cons c cs ih =>
    have := Char.utf8Size_pos c
    simp only [utf8Len, List.map_cons, List.sum_cons, List.length_cons]
    simp only [utf8Len] at ih
    omega

/-- The rolling-row implementation agrees with the textbook recursion. -/
lemma lev_distance_eq_levRec (a b : List Char) : lev_distance a b = levRec a b := by
  match a, b with
  | [], b => simp [lev_distance, levRec_nil_left]
  | x :: xs, [] => simp [lev_distance, levRec_nil_right]
  | x :: xs, y :: ys =>
    have hbne : (y :: ys) ≠ ([] : List Char) := by simp
    have hblen : (y :: ys).length < (List.range (utf8Len (y :: ys) + 1)).length := by
      rw [List.length_range]
      have := length_le_utf8Len (y :: ys)
      omega
    have hrow : ∀ k, k ≤ (y :: ys).length →
        (List.range (utf8Len (y :: ys) + 1)).getD k 0 = levRec [] ((y :: ys).take k) := by
      intro k hk
      have hle := length_le_utf8Len (y :: ys)
      rw [List.getD_eq_getElem (List.range (utf8Len (y :: ys) + 1)) 0
        (by rw [List.length_range]; omega)]
      rw [List.getElem_range, levRec_nil_left, List.length_take]
      omega
    obtain ⟨o1, o2, o3⟩ := levOuter_spec (y :: ys) hbne (x :: xs) []
      (List.range (utf8Len (y :: ys) + 1)) 0 hblen hrow
    simp only [List.length_nil] at o1 o2 o3
    have hres : lev_distance (x :: xs) (y :: ys) =
        (levOuter (x :: xs) 0 (y :: ys) (List.range (utf8Len (y :: ys) + 1)) 0).1.getD
          ((levOuter (x :: xs) 0 (y :: ys) (List.range (utf8Len (y :: ys) + 1)) 0).2 + 1) 0 :=
      rfl
    rw [hres, o3]
    simp only [List.isEmpty_cons]
    have h1 : (y :: ys).length - 1 + 1 = (y :: ys).length := by simp
    rw [if_neg (by simp), h1, o2 (y :: ys).length le_rfl, List.take_length, List.nil_append]

/-! ## In-bounds execution: the checked loops never fail -/

lemma levInner_length (sc : Char) :
    ∀ (tcs : List Char) (j : Nat) (dcol : List Nat) (current tLast : Nat),
      (levInner sc tcs j dcol current tLast).1.length = dcol.length := by
  intro tcs
  induction tcs with
  | nil => intro j dcol current tLast; rfl
  | cons tc rest ih =>
    intro j dcol current tLast
    rw [levInner_cons, ih]
    split <;> rw [List.length_set]

lemma levInner_tLast (sc : Char) :
    ∀ (tcs : List Char) (j : Nat) (dcol : List Nat) (current tLast : Nat),
      (levInner sc tcs j dcol current tLast).2 =
        (if tcs.isEmpty then tLast else j + (tcs.length - 1)) := by
  intro tcs
  induction tcs with
  | nil => intro j dcol current tLast; rfl
  | cons tc rest ih =>
    intro j dcol current tLast
    rw [levInner_cons, ih]
    rcases rest with _ | ⟨r, rs⟩
    · simp
    · simp
      omega

lemma levOuter_length :
    ∀ (scs : List Char) (i : Nat) (b : List Char) (dcol : List Nat) (tLast : Nat),
      (levOuter scs i b dcol tLast).1.length = dcol.length := by
  intro scs
  induction scs with
  | nil => intros; rfl
  | cons sc rest ih =>
    intro i b dcol tLast
    rw [levOuter_cons, ih, levInner_length, List.length_set]

lemma levOuter_tLast :
    ∀ (scs : List Char) (i : Nat) (b : List Char) (dcol : List Nat) (tLast : Nat),
      (levOuter scs i b dcol tLast).2 =
        (if scs.isEmpty then tLast else if b.isEmpty then tLast else b.length - 1) := by
  intro scs
  induction scs with
  | nil => intros; rfl
  | cons sc rest ih =>
    intro i b dcol tLast
    rw [levOuter_cons, ih, levInner_tLast]
    rcases b with _ | ⟨y, ys⟩
    · simp
    · rcases rest with _ | ⟨r, rs⟩ <;> simp

lemma levInnerChk_eq (sc : Char) :
    ∀ (tcs : List Char) (j : Nat) (dcol : List Nat) (current tLast : Nat),
      j + tcs.length < dcol.length →
      levInnerChk sc tcs j dcol current tLast =
        some (levInner sc tcs j dcol current tLast) := by
  intro tcs
  induction tcs with
  | nil => intro j dcol current tLast h; rfl
  | cons tc rest ih =>
    intro j dcol current tLast h
    simp only [List.length_cons] at h
    have h1 : j + 1 < dcol.length := by omega
    have hget1 : dcol[j + 1]? = some (dcol.getD (j + 1) 0) := by
      rw [List.getD_eq_getElem _ 0 h1]
      exact List.getElem?_eq_getElem h1
    have hget0 : dcol[j]? = some (dcol.getD j 0) := by
      rw [List.getD_eq_getElem _ 0 (by omega)]
      exact List.getElem?_eq_getElem (by omega)
    rw [levInner_cons]
    simp only [levInnerChk, hget1, hget0]
    by_cases hsc : sc = tc
    · simp only [if_pos hsc]
      exact ih (j + 1) _ _ j (by rw [List.length_set]; omega)
    · simp only [if_neg hsc]
      exact ih (j + 1) _ _ j (by rw [List.length_set]; omega)

lemma levOuterChk_eq :
    ∀ (scs : List Char) (i : Nat) (b : List Char) (dcol : List Nat) (tLast : Nat),
      b.length < dcol.length →
      levOuterChk scs i b dcol tLast = some (levOuter scs i b dcol tLast) := by
  intro scs
  induction scs with
  | nil => intro i b dcol tLast h; rfl
  | cons sc rest ih =>
    intro i b dcol tLast h
    rw [levOuter_cons]
    simp only [levOuterChk, if_pos (show 0 < dcol.length by omega)]
    rw [levInnerChk_eq sc b 0 _ i tLast (by rw [List.length_set]; omega)]
    exact ih (i + 1) b _ _ (by rw [levInner_length, List.length_set]; omega)

lemma editStep_symm {a b : List Char} (h : EditStep a b) : EditStep b a := by
  cases h with
  | insert p s c => exact EditStep.delete p s c
  | delete p s c => exact EditStep.insert p s c
  | subst p s c d => exact EditStep.subst p s d c

lemma editPath_symm {n : Nat} {a b : List Char} (h : EditPath n a b) : EditPath n b a := by
  induction h with
  | refl xs => exact .refl xs
  | step hs _ ih =>
    have := editPath_trans ih (.step (editStep_symm hs) (.refl _))
    simpa using this

/-! ## Claim theorems: the edit-distance engine -/

/-- C1: for all strings `a`, `b` (sequences of Unicode scalar values),
`lev_distance a b` is the minimum number of single-character insertions,
deletions, or substitutions needed to transform `a` into `b`; in particular
the unit of editing is the scalar value, never the byte. -/
theorem lev_distance_is_min_edit_count (a b : List Char) :
    EditPath (lev_distance a b) a b ∧ ∀ n, EditPath n a b → lev_distance a b ≤ n := by
  rw [lev_distance_eq_levRec]
  exact ⟨editPath_levRec (a.length + b.length) a b le_rfl,
    fun n h => levRec_le_editPath h⟩

/-- C6: `lev_distance` is symmetric. -/
theorem lev_distance_symm (a b : List Char) : lev_distance a b = lev_distance b a := by
  rw [lev_distance_eq_levRec a b, lev_distance_eq_levRec b a]
  apply Nat.le_antisymm
  · exact levRec_le_editPath (editPath_symm (editPath_levRec (b.length + a.length) b a le_rfl))
  · exact levRec_le_editPath (editPath_symm (editPath_levRec (a.length + b.length) a b le_rfl))

/-- C7: against an empty string, `lev_distance` returns the scalar-value
count of the other string. -/
theorem lev_distance_empty_cases :
    (∀ b : List Char, lev_distance [] b = b.length) ∧
    (∀ a : List Char, lev_distance a [] = a.length) := by
  constructor
  · intro b; simp [lev_distance]
  · intro a; cases a <;> simp [lev_distance]

/-- C10: `lev_distance a b = 0` exactly when `a` and `b` are equal as
sequences of scalar values. -/
theorem lev_distance_eq_zero_iff (a b : List Char) :
    lev_distance a b = 0 ↔ a = b := by
  constructor
  · intro h
    have hp := editPath_levRec (a.length + b.length) a b le_rfl
    rw [← lev_distance_eq_levRec, h] at hp
    cases hp with
    | refl => rfl
  · rintro rfl
    rw [lev_distance_eq_levRec, levRec_self]

/-- C8: `lev_distance` is total and panic-free: the checked interpretation of
the loops, in which every index into the working row `dcol` (of length
`b.len() + 1` bytes-wise, indexed by character positions of `b`) is
bounds-tested, never fails and returns exactly `lev_distance a b`. -/
theorem lev_distance_no_panic (a b : List Char) :
    lev_distanceChk a b = some (lev_distance a b) := by
  match a, b with
  | [], b => rfl
  | x :: xs, [] => rfl
  | x :: xs, y :: ys =>
    have hle := length_le_utf8Len (y :: ys)
    have hlen : (y :: ys).length < (List.range (utf8Len (y :: ys) + 1)).length := by
      rw [List.length_range]; omega
    have h1 : lev_distanceChk (x :: xs) (y :: ys) =
        (match levOuterChk (x :: xs) 0 (y :: ys) (List.range (utf8Len (y :: ys) + 1)) 0 with
         | none => none
         | some st => st.1[st.2 + 1]?) := rfl
    have h2 : lev_distance (x :: xs) (y :: ys) =
        (levOuter (x :: xs) 0 (y :: ys) (List.range (utf8Len (y :: ys) + 1)) 0).1.getD
          ((levOuter (x :: xs) 0 (y :: ys) (List.range (utf8Len (y :: ys) + 1)) 0).2 + 1) 0 :=
      rfl
    rw [h1, h2, levOuterChk_eq _ _ _ _ _ hlen]
    have ht := levOuter_tLast (x :: xs) 0 (y :: ys) (List.range (utf8Len (y :: ys) + 1)) 0
    have hl := levOuter_length (x :: xs) 0 (y :: ys) (List.range (utf8Len (y :: ys) + 1)) 0
    have hidx : (levOuter (x :: xs) 0 (y :: ys) (List.range (utf8Len (y :: ys) + 1)) 0).2 + 1 <
        (levOuter (x :: xs) 0 (y :: ys) (List.range (utf8Len (y :: ys) + 1)) 0).1.length := by
      rw [ht, hl, List.length_range, if_neg (by simp), if_neg (by simp)]
      simp only [List.length_cons] at hle ⊢
      omega
    show (levOuter (x :: xs) 0 (y :: ys) (List.range (utf8Len (y :: ys) + 1)) 0).1[
        (levOuter (x :: xs) 0 (y :: ys) (List.range (utf8Len (y :: ys) + 1)) 0).2 + 1]? =
      some ((levOuter (x :: xs) 0 (y :: ys) (List.range (utf8Len (y :: ys) + 1)) 0).1.getD
        ((levOuter (x :: xs) 0 (y :: ys) (List.range (utf8Len (y :: ys) + 1)) 0).2 + 1) 0)
    rw [List.getElem?_eq_getElem hidx, List.getD_eq_getElem _ 0 hidx]

/-! ## Claim theorems: the best-match search -/

/-- C9: with no candidates, every tier produces nothing and the result is the
absent value, for every lookup and every (absent or explicit) threshold. -/
theorem find_best_match_for_name_empty (lookup : List Char) (dist : Option Nat) :
    find_best_match_for_name [] lookup dist = none := rfl

/-- C5: tier 1 — when some candidate's uppercase form equals the lookup's
uppercase form, the first such candidate is returned, for every (absent or
explicit) threshold, and the later tiers are not consulted. -/
theorem find_best_match_for_name_tier1 (iter_names : List (List Char)) (lookup : List Char)
    (dist : Option Nat) (c : List Char)
    (h : iter_names.find? (fun candidate => to_uppercase candidate == to_uppercase lookup) =
      some c) :
    find_best_match_for_name iter_names lookup dist = some c := by
  unfold find_best_match_for_name
  rw [h]

set_option maxRecDepth 8192 in
/-- Witness for C5, at a non-ASCII input that needs the Unicode uppercase
mapping: candidates `["Ä", "ä"]` with lookup `"ä"` match the FIRST candidate
`"Ä"` at tier 1 (both sides uppercase to `"Ä"`), for an explicit threshold
as well. -/
theorem find_best_match_for_name_tier1_witness :
    to_uppercase "ä".toList = "Ä".toList ∧
    (["Ä".toList, "ä".toList].find?
      (fun candidate => to_uppercase candidate == to_uppercase "ä".toList) =
        some "Ä".toList) ∧
    find_best_match_for_name ["Ä".toList, "ä".toList] "ä".toList (some 4) =
      some "Ä".toList :=
  ⟨by decide, by decide, find_best_match_for_name_tier1 _ _ _ _ (by decide)⟩

/-- The tier-3 fold returns the last matching candidate: it equals `find?` on
the reversed candidate list. -/
lemma find_match_by_sorted_words_eq_find?_reverse (iter_names : List (List Char))
    (lookup : List Char) :
    find_match_by_sorted_words iter_names lookup =
      iter_names.reverse.find? (fun c => sort_by_words c == sort_by_words lookup) := by
  induction iter_names using List.reverseRecOn with
  | nil => rfl
  | append_singleton l c ih =>
    unfold find_match_by_sorted_words at ih ⊢
    rw [List.foldl_append, List.reverse_append]
    by_cases h : sort_by_words c = sort_by_words lookup
    · simp [h]
    · simp [h, ih]

/-- C2 counterexample: with candidates `["cc_bb_aa", "bb_aa_cc"]` and lookup
`"aa_bb_cc"` (absent threshold), tiers 1 and 2 produce nothing and BOTH
candidates normalize to the lookup's normalization, yet the function returns
the second candidate — not the first as the claim states. -/
theorem find_best_match_word_fallback_not_first :
    (∀ c ∈ [("cc_bb_aa" : String).toList, ("bb_aa_cc" : String).toList],
      to_uppercase c ≠ to_uppercase "aa_bb_cc".toList) ∧
    (∀ c ∈ [("cc_bb_aa" : String).toList, ("bb_aa_cc" : String).toList],
      (none : Option Nat).getD (max (utf8Len "aa_bb_cc".toList) 3 / 3) <
        lev_distance "aa_bb_cc".toList c) ∧
    sort_by_words "cc_bb_aa".toList = sort_by_words "aa_bb_cc".toList ∧
    sort_by_words "bb_aa_cc".toList = sort_by_words "aa_bb_cc".toList ∧
    find_best_match_for_name ["cc_bb_aa".toList, "bb_aa_cc".toList] "aa_bb_cc".toList none =
      some "bb_aa_cc".toList ∧
    "bb_aa_cc".toList ≠ "cc_bb_aa".toList := by
  decide

/-- C2 (amended): when tiers 1 and 2 produce nothing,
`find_best_match_for_name` returns the LAST candidate in supplied iteration
order whose word-set normalization equals the lookup's — a later matching
candidate displaces an earlier one — and `none` when no candidate's
normalization matches. -/
theorem find_best_match_for_name_tier3_last (iter_names : List (List Char))
    (lookup : List Char) (dist : Option Nat)
    (h1 : ∀ c ∈ iter_names, to_uppercase c ≠ to_uppercase lookup)
    (h2 : ∀ c ∈ iter_names,
      dist.getD (max (utf8Len lookup) 3 / 3) < lev_distance lookup c) :
    find_best_match_for_name iter_names lookup dist =
      iter_names.reverse.find? (fun c => sort_by_words c == sort_by_words lookup) := by
  unfold find_best_match_for_name
  have hfind : iter_names.find?
      (fun candidate => to_uppercase candidate == to_uppercase lookup) = none := by
    rw [List.find?_eq_none]
    intro x hx
    simpa using h1 x hx
  have hlev : levenshteinMatch iter_names lookup
      (dist.getD (max (utf8Len lookup) 3 / 3)) = none := by
    unfold levenshteinMatch
    have hnil : iter_names.filterMap (fun name =>
        if lev_distance lookup name ≤ dist.getD (max (utf8Len lookup) 3 / 3) then
          some (name, lev_distance lookup name)
        else none) = [] := by
      rw [List.filterMap_eq_nil_iff]
      intro a ha
      have := h2 a ha
      rw [if_neg (by omega)]
    rw [hnil]
    rfl
  rw [hfind, hlev]
  exact find_match_by_sorted_words_eq_find?_reverse iter_names lookup

/-- Witness for the amended C2 at a concrete input on which tiers 1 and 2
produce nothing. -/
theorem find_best_match_for_name_tier3_last_witness :
    (∀ c ∈ [("cc_bb_aa" : String).toList, ("bb_aa_cc" : String).toList],
      to_uppercase c ≠ to_uppercase "aa_bb_cc".toList) ∧
    (∀ c ∈ [("cc_bb_aa" : String).toList, ("bb_aa_cc" : String).toList],
      (none : Option Nat).getD (max (utf8Len "aa_bb_cc".toList) 3 / 3) <
        lev_distance "aa_bb_cc".toList c) ∧
    find_best_match_for_name ["cc_bb_aa".toList, "bb_aa_cc".toList] "aa_bb_cc".toList none =
      (["cc_bb_aa".toList, "bb_aa_cc".toList].reverse.find?
        (fun c => sort_by_words c == sort_by_words "aa_bb_cc".toList)) :=
  ⟨by decide, by decide,
    find_best_match_for_name_tier3_last _ _ _ (by decide) (by decide)⟩

/-- C3 counterexample: for the non-ASCII lookup `"ääää"` (4 scalar values, 8
UTF-8 bytes), the absent-threshold behaviour differs from the behaviour under
the claimed scalar-count default `max(4, 3) / 3 = 1`: the code's default
threshold comes from the byte length (here `max(8, 3) / 3 = 2`). -/
theorem default_threshold_not_scalar_count :
    find_best_match_for_name ["ääxx".toList] "ääää".toList none = some "ääxx".toList ∧
    find_best_match_for_name ["ääxx".toList] "ääää".toList
      (some (max ("ääää".toList.length) 3 / 3)) = none ∧
    ("ääää" : String).toList.length = 4 ∧ utf8Len "ääää".toList = 8 := by
  decide

/-- C3 (amended): when the threshold argument is absent,
`find_best_match_for_name` uses the default `max(len(lookup), 3) / 3` with
integer division, where `len(lookup)` is the UTF-8 BYTE length of the lookup
(Rust's `str::len`), not its scalar-value count. -/
theorem default_threshold_uses_byte_length (iter_names : List (List Char))
    (lookup : List Char) :
    find_best_match_for_name iter_names lookup none =
      find_best_match_for_name iter_names lookup (some (max (utf8Len lookup) 3 / 3)) := rfl

/-! ## Tier 2: the fold selects the first candidate of minimum distance -/

/-- The tier-2 selection rule as the specification words it: among the
candidates whose edit distance to the lookup is within the threshold, the one
with the globally smallest distance, taking the first in iteration order
among those sharing the minimum. -/
def minimumDistanceSpec (iter_names : List (List Char)) (lookup : List Char)
    (max_dist : Nat) : Option (List Char) :=
  let elig := iter_names.filter (fun c => lev_distance lookup c ≤ max_dist)
  match (elig.map (fun c => lev_distance lookup c)).min? with
  | none => none
  | some m => elig.find? (fun c => lev_distance lookup c == m)

/-- The running-best accumulator of the tier-2 fold, started from `p`. -/
def runningBest (p : List Char × Nat) : List (List Char × Nat) → List Char × Nat
  | [] => p
  | q :: l => runningBest (if q.2 < p.2 then q else p) l

/-- The first element (starting from `c`) whose `f`-value is minimal, under
the strict-less replacement rule of the fold. -/
def firstMinBy (f : List Char → Nat) (c : List Char) : List (List Char) → List Char
  | [] => c
  | d :: l => firstMinBy f (if f d < f c then d else c) l

lemma foldl_best_some :
    ∀ (l : List (List Char × Nat)) (p : List Char × Nat),
      l.foldl (fun result cd =>
        match result with
        | none => some cd
        | some cd' => some (if cd.2 < cd'.2 then cd else cd')) (some p) =
      some (runningBest p l) := by
  intro l
  induction l with
  | nil => intro p; rfl
  | cons q t ih =>
    intro p
    rw [List.foldl_cons]
    exact ih (if q.2 < p.2 then q else p)

lemma foldl_best_none (l : List (List Char × Nat)) (q : List Char × Nat) :
    (q :: l).foldl (fun result cd =>
      match result with
      | none => some cd
      | some cd' => some (if cd.2 < cd'.2 then cd else cd')) none =
    some (runningBest q l) := by
  have h : (q :: l).foldl (fun result cd =>
      match result with
      | none => some cd
      | some cd' => some (if cd.2 < cd'.2 then cd else cd')) none =
    l.foldl (fun result cd =>
      match result with
      | none => some cd
      | some cd' => some (if cd.2 < cd'.2 then cd else cd')) (some q) := rfl
  rw [h, foldl_best_some]

lemma runningBest_map (f : List Char → Nat) :
    ∀ (l : List (List Char)) (c : List Char),
      runningBest (c, f c) (l.map (fun x => (x, f x))) =
        (firstMinBy f c l, f (firstMinBy f c l)) := by
  intro l
  induction l with
  | nil => intro c; rfl
  | cons d t ih =>
    intro c
    simp only [List.map_cons, runningBest, firstMinBy]
    by_cases h : f d < f c
    · simpa [h] using ih d
    · simpa [h] using ih c

lemma firstMinBy_le (f : List Char → Nat) :
    ∀ (l : List (List Char)) (c : List Char),
      f (firstMinBy f c l) ≤ f c ∧ ∀ x ∈ l, f (firstMinBy f c l) ≤ f x := by
  intro l
  induction l with
  | nil => intro c; exact ⟨le_rfl, by simp⟩
  | cons d t ih =>
    intro c
    by_cases h : f d < f c
    · obtain ⟨ih1, ih2⟩ := ih d
      refine ⟨?_, ?_⟩
      · simp only [firstMinBy, if_pos h]; omega
      · intro x hx
        simp only [firstMinBy, if_pos h]
        rcases List.mem_cons.mp hx with rfl | hx'
        · exact ih1
        · exact ih2 x hx'
    · obtain ⟨ih1, ih2⟩ := ih c
      refine ⟨?_, ?_⟩
      · simp only [firstMinBy, if_neg h]; exact ih1
      · intro x hx
        simp only [firstMinBy, if_neg h]
        rcases List.mem_cons.mp hx with rfl | hx'
        · omega
        · exact ih2 x hx'

lemma firstMinBy_mem (f : List Char → Nat) :
    ∀ (l : List (List Char)) (c : List Char),
      firstMinBy f c l = c ∨ firstMinBy f c l ∈ l := by
  intro l
  induction l with
  | nil => intro c; exact Or.inl rfl
  | cons d t ih =>
    intro c
    by_cases h : f d < f c
    · simp only [firstMinBy, if_pos h]
      rcases ih d with h' | h'
      · exact Or.inr (by rw [h']; exact List.mem_cons_self d t)
      · exact Or.inr (List.mem_cons_of_mem d h')
    · simp only [firstMinBy, if_neg h]
      rcases ih c with h' | h'
      · exact Or.inl h'
      · exact Or.inr (List.mem_cons_of_mem d h')

lemma find?_firstMinBy (f : List Char → Nat) :
    ∀ (l : List (List Char)) (c : List Char),
      (c :: l).find? (fun x => f x == f (firstMinBy f c l)) =
        some (firstMinBy f c l) := by
  intro l
  induction l with
  | nil =>
    intro c
    simp [firstMinBy]
  | cons d t ih =>
    intro c
    by_cases hdc : f d < f c
    · have hr : firstMinBy f c (d :: t) = firstMinBy f d t := by
        simp only [firstMinBy, if_pos hdc]
      rw [hr]
      have hle := (firstMinBy_le f t d).1
      have hnc : ¬ (f c == f (firstMinBy f d t)) = true := by
        simp only [beq_iff_eq]; omega
      rw [@List.find?_cons_of_neg _ (fun x => f x == f (firstMinBy f d t)) c (d :: t) hnc]
      exact ih d
    · have hr : firstMinBy f c (d :: t) = firstMinBy f c t := by
        simp only [firstMinBy, if_neg hdc]
      rw [hr]
      have ihc := ih c
      by_cases hc : f c = f (firstMinBy f c t)
      · have hcr : firstMinBy f c t = c := by
          rw [@List.find?_cons_of_pos _ (fun x => f x == f (firstMinBy f c t)) c t
            (by simp [hc])] at ihc
          exact (Option.some.inj ihc).symm
        rw [hcr]
        exact @List.find?_cons_of_pos _ (fun x => f x == f c) c (d :: t) (by simp)
      · have hle := (firstMinBy_le f t c).1
        have hnc : ¬ (f c == f (firstMinBy f c t)) = true := by
          simpa using hc
        have hnd : ¬ (f d == f (firstMinBy f c t)) = true := by
          simp only [beq_iff_eq]; omega
        rw [@List.find?_cons_of_neg _ (fun x => f x == f (firstMinBy f c t)) c (d :: t) hnc,
          @List.find?_cons_of_neg _ (fun x => f x == f (firstMinBy f c t)) d t hnd]
        rwa [@List.find?_cons_of_neg _ (fun x => f x == f (firstMinBy f c t)) c t hnc] at ihc

lemma min?_map_firstMinBy (f : List Char → Nat) (l : List (List Char)) (c : List Char) :
    ((c :: l).map f).min? = some (f (firstMinBy f c l)) := by
  rw [List.min?_eq_some_iff']
  constructor
  · rcases firstMinBy_mem f l c with h | h
    · rw [h]; exact List.mem_map_of_mem f (List.mem_cons_self c l)
    · exact List.mem_map_of_mem f (List.mem_cons_of_mem c h)
  · intro x hx
    rcases List.mem_map.mp hx with ⟨y, hy, rfl⟩
    rcases List.mem_cons.mp hy with rfl | hy'
    · exact (firstMinBy_le f l y).1
    · exact (firstMinBy_le f l c).2 y hy'

/-- The tier-2 fold computes exactly the specification's selection rule. -/
lemma levenshteinMatch_eq_spec (iter_names : List (List Char)) (lookup : List Char)
    (max_dist : Nat) :
    (levenshteinMatch iter_names lookup max_dist).map Prod.fst =
      minimumDistanceSpec iter_names lookup max_dist := by
  unfold levenshteinMatch minimumDistanceSpec
  have hfm : iter_names.filterMap (fun name =>
      if lev_distance lookup name ≤ max_dist then
        some (name, lev_distance lookup name)
      else none) =
      (iter_names.filter (fun c => lev_distance lookup c ≤ max_dist)).map
        (fun c => (c, lev_distance lookup c)) := by
    induction iter_names with
    | nil => rfl
    | cons a t ih =>
      rw [List.filterMap_cons, List.filter_cons]
      by_cases h : lev_distance lookup a ≤ max_dist
      · simp [h, ih]
      · simp [h, ih]
  rw [hfm]
  cases helig : iter_names.filter (fun c => lev_distance lookup c ≤ max_dist) with
  | nil => rfl
  | cons c l =>
    rw [List.map_cons, foldl_best_none, runningBest_map]
    have hmin := min?_map_firstMinBy (lev_distance lookup) l c
    show some (firstMinBy (lev_distance lookup) c l) =
      (match (List.map (lev_distance lookup) (c :: l)).min? with
       | none => none
       | some m => (c :: l).find? (fun x => lev_distance lookup x == m))
    rw [hmin]
    exact (find?_firstMinBy (lev_distance lookup) l c).symm

/-- C4: once tier 1 has failed, the result is the tier-2 selection — the
first candidate of globally smallest distance among those within the
threshold — and, when no candidate is within the threshold, tier 2 yields
nothing and the tier-3 word-sort fallback is used. -/
theorem find_best_match_for_name_tier2 (iter_names : List (List Char))
    (lookup : List Char) (dist : Option Nat)
    (h1 : ∀ c ∈ iter_names, to_uppercase c ≠ to_uppercase lookup) :
    find_best_match_for_name iter_names lookup dist =
      (match minimumDistanceSpec iter_names lookup
          (dist.getD (max (utf8Len lookup) 3 / 3)) with
       | some c => some c
       | none => find_match_by_sorted_words iter_names lookup) := by
  unfold find_best_match_for_name
  have hfind : iter_names.find?
      (fun candidate => to_uppercase candidate == to_uppercase lookup) = none := by
    rw [List.find?_eq_none]
    intro x hx
    simpa using h1 x hx
  have hspec := levenshteinMatch_eq_spec iter_names lookup
    (dist.getD (max (utf8Len lookup) 3 / 3))
  rw [hfind]
  cases hlm : levenshteinMatch iter_names lookup
      (dist.getD (max (utf8Len lookup) 3 / 3)) with
  | none =>
    rw [hlm] at hspec
    rw [← hspec]
    rfl
  | some cd =>
    rw [hlm] at hspec
    rw [← hspec]
    rfl

/-- Witness for C4 at the spec's own example: lookup `"aaaa"` against
`["aaab", "aaabc"]` (distances 1 and 2, threshold 1). -/
theorem find_best_match_for_name_tier2_witness :
    (∀ c ∈ [("aaab" : String).toList, ("aaabc" : String).toList],
      to_uppercase c ≠ to_uppercase "aaaa".toList) ∧
    find_best_match_for_name ["aaab".toList, "aaabc".toList] "aaaa".toList none =
      (match minimumDistanceSpec ["aaab".toList, "aaabc".toList] "aaaa".toList
          ((none : Option Nat).getD (max (utf8Len "aaaa".toList) 3 / 3)) with
       | some c => some c
       | none => find_match_by_sorted_words ["aaab".toList, "aaabc".toList] "aaaa".toList) :=
  ⟨by decide, find_best_match_for_name_tier2 _ _ _ (by decide)⟩
